import Mathlib

/-!
Verification development for the SBB train-delay collection and analysis
pipeline (api_client.py, connections.py, station_board.py, delay_analysis.py).

The Python source is shallowly embedded:

* JSON payloads and the flat tabular records produced by the normalizers are
  modelled by the inductive `Json` type; Python dicts become association
  lists with assignment semantics (`setField` replaces the first binding).
* Python datetimes are modelled by `PyDateTime` (civil components, seconds
  within the day, optional UTC offset in minutes).  Epoch arithmetic uses the
  standard days-from-civil formula.  `datetime.fromtimestamp` converts an
  epoch value to local wall-clock time; the machine's UTC offset is passed
  explicitly as the `off` parameter (in seconds).
* Code that can raise an exception that escapes the function is embedded in
  `Except String`; exceptions that the Python source catches locally are
  folded into `Option`/`none` results exactly where the source catches them.
* `round` in Python rounds half to even (`pyRound60` below divides a number
  of seconds by 60 that way); `int(...)` truncates toward zero (`pyTrunc60`).
  For second-granularity inputs the binary floating-point division performed
  by Python is exact at all tie points, so the rational model agrees with it.
-/

namespace SBB

/-- JSON-like values as delivered by the transport API, also used for the
cell values of the flat records (`null` stands for Python `None`/NaN-free
missing value; floats do not occur in the modelled fields). -/
inductive Json where
  | null
  | str (s : String)
  | int (n : Int)
  | obj (fields : List (String × Json))
  | arr (elems : List Json)
deriving Repr

mutual

/-- Structural equality test on `Json` (Python `==` on the modelled values). -/
def Json.beq : Json → Json → Bool
  | .null, .null => true
  | .str a, .str b => a == b
  | .int a, .int b => a == b
  | .obj a, .obj b => Json.beqFields a b
  | .arr a, .arr b => Json.beqElems a b
  | _, _ => false

def Json.beqFields : List (String × Json) → List (String × Json) → Bool
  | [], [] => true
  | (k, v) :: r, (k', v') :: r' => k == k' && Json.beq v v' && Json.beqFields r r'
  | _, _ => false

def Json.beqElems : List Json → List Json → Bool
  | [], [] => true
  | v :: r, v' :: r' => Json.beq v v' && Json.beqElems r r'
  | _, _ => false

end

instance : BEq Json := ⟨Json.beq⟩

/-- A processed record / dataframe row: a Python dict from column names to
cell values. -/
abbrev Row := List (String × Json)

/-- First binding of a key in an association list (Python dict lookup;
inputs are duplicate-free, so first = only). -/
def rowGet : Row → String → Option Json
  | [], _ => none
  | (k', v) :: rest, k => if k' = k then some v else rowGet rest k

/-- `dict.get(key)` with a default, as used all over the source. -/
def rowGetD (r : Row) (k : String) (d : Json := Json.null) : Json :=
  (rowGet r k).getD d

/-- `key in dict`. -/
def hasKey (r : Row) (k : String) : Bool :=
  (rowGet r k).isSome

/-- Python dict assignment `d[k] = v`: replace the first binding of `k`,
or append a new binding. -/
def setField : Row → String → Json → Row
  | [], k, v => [(k, v)]
  | (k', v') :: rest, k, v =>
      if k' = k then (k, v) :: rest else (k', v') :: setField rest k v

/-- Python truthiness for the values that occur in the pipeline. -/
def Json.truthy : Json → Bool
  | .null => false
  | .str s => !s.isEmpty
  | .int n => n != 0
  | .obj fs => !fs.isEmpty
  | .arr xs => !xs.isEmpty

/-- `safe_get` (connections.py / station_board.py): returns the default when
the container is `None`, does a dict `get` on a dict, and raises
`AttributeError` on any other value (the Python code calls `.get` on it). -/
def safe_get (obj : Json) (key : String) (default : Json := Json.null) :
    Except String Json :=
  match obj with
  | .null => .ok default
  | .obj fs => .ok (rowGetD fs key default)
  | _ => .error "AttributeError"

/-- Python `a - b` on cell values: defined for integers, raises `TypeError`
otherwise (the delay fields subtracted by the source are ints or None, and
None operands are always guarded before the subtraction). -/
def pySub : Json → Json → Except String Json
  | .int a, .int b => .ok (.int (a - b))
  | _, _ => .error "TypeError"

/-- `pd.notna` on the modelled cell values: only `None` counts as missing. -/
def notna (v : Json) : Bool := v != Json.null

/-- Splitting a character list at every occurrence of one character
(Python `str.split(c)`; the source only splits on the single characters
`d` and `:`). -/
def splitChar (c : Char) : List Char → List String
  | [] => [""]
  | x :: rest =>
      let r := splitChar c rest
      if x = c then "" :: r
      else
        match r with
        | [] => [String.mk [x]]
        | h :: t => String.mk (x :: h.data) :: t

/-- Replace every occurrence of one character by a replacement string
(Python `str.replace('Z', '+00:00')`). -/
def replaceAll (pat : Char) (repl : List Char) : List Char → List Char
  | [] => []
  | x :: rest =>
      if x = pat then repl ++ replaceAll pat repl rest
      else x :: replaceAll pat repl rest

/-- The `datetime_str.replace('Z', '+00:00')` preprocessing used before
every `fromisoformat` call of the source. -/
def pyReplaceZ (s : String) : String :=
  String.mk (replaceAll 'Z' "+00:00".data s.data)

def isSublistOf (pat : List Char) : List Char → Bool
  | [] => pat.isEmpty
  | x :: rest => pat.isPrefixOf (x :: rest) || isSublistOf pat rest

/-- Python `', '.join(...)`. -/
def joinSep (sep : String) : List String → String
  | [] => ""
  | [x] => x
  | x :: y :: rest => x ++ sep ++ joinSep sep (y :: rest)

/-- Python `key in value` for the membership tests of the source
(`'journey' in section`): key lookup on a dict, element membership on a
list, substring test on a string, `TypeError` otherwise. -/
def pyContains (v : Json) (key : String) : Except String Bool :=
  match v with
  | .obj fs => .ok (hasKey fs key)
  | .arr xs => .ok (xs.contains (.str key))
  | .str s => .ok (isSublistOf key.data s.data)
  | _ => .error "TypeError"

/-- Python `value[key]` (only reached after a successful membership test on
a dict in the source). -/
def pyIndex (v : Json) (key : String) : Except String Json :=
  match v with
  | .obj fs =>
      match rowGet fs key with
      | some x => .ok x
      | none => .error "KeyError"
  | _ => .error "TypeError"

/-- Python `int(string)`: an optional sign followed by digits (surrounding
whitespace and underscores are not modelled; the strings fed to `int` by the
source are plain digit strings). -/
def pyParseInt (s : String) : Option Int :=
  let core (ds : List Char) : Option Nat :=
    if ds.isEmpty || !ds.all Char.isDigit then none
    else some (ds.foldl (fun a c => a * 10 + (c.toNat - 48)) 0)
  match s.data with
  | '-' :: rest => (core rest).map (fun n => -(n : Int))
  | '+' :: rest => (core rest).map (fun n => (n : Int))
  | ds => (core ds).map (fun n => (n : Int))

/-- Python `round(s / 60)` for an integral number of seconds `s`:
round half to even. -/
def pyRound60 (s : Int) : Int :=
  let q := s / 60
  let r := s % 60
  if r < 30 then q
  else if r > 30 then q + 1
  else if q % 2 = 0 then q else q + 1

/-- Python `int(s / 60)` for an integral number of seconds `s`:
truncation toward zero. -/
def pyTrunc60 (s : Int) : Int := Int.tdiv s 60

/-- A Python `datetime`: civil date components, seconds within the day, and
an optional UTC offset in minutes (`none` = naive). -/
structure PyDateTime where
  year : Int
  month : Int
  day : Int
  sod : Int
  tzMin : Option Int
deriving Repr, DecidableEq

/-- Days since 1970-01-01 of a civil date (standard days-from-civil
formula). -/
def daysFromCivil (y m d : Int) : Int :=
  let y' := y - (if m <= 2 then 1 else 0)
  let era := (if 0 <= y' then y' else y' - 399) / 400
  let yoe := y' - era * 400
  let doy := (153 * (m + (if m > 2 then -3 else 9)) + 2) / 5 + d - 1
  let doe := yoe * 365 + yoe / 4 - yoe / 100 + doy
  era * 146097 + doe - 719468

/-- Wall-clock seconds since the epoch origin, ignoring the offset (this is
what subtracting two naive datetimes, or two aware datetimes with the same
offset, measures). -/
def PyDateTime.wallSecs (t : PyDateTime) : Int :=
  daysFromCivil t.year t.month t.day * 86400 + t.sod

/-- UTC seconds of an aware datetime with offset `off` minutes. -/
def PyDateTime.utcSecs (t : PyDateTime) (off : Int) : Int :=
  t.wallSecs - 60 * off

def isLeapYear (y : Int) : Bool :=
  (y % 4 = 0 && y % 100 != 0) || y % 400 = 0

def daysInMonth (y m : Int) : Int :=
  if m = 2 then (if isLeapYear y then 29 else 28)
  else if m = 4 || m = 6 || m = 9 || m = 11 then 30
  else 31

def digitVal (c : Char) : Option Nat :=
  if c.isDigit then some (c.toNat - 48) else none

def twoDigits (a b : Char) : Option Int := do
  let x ← digitVal a
  let y ← digitVal b
  pure ((x * 10 + y : Nat) : Int)

def fourDigits (a b c d : Char) : Option Int := do
  let x ← twoDigits a b
  let y ← twoDigits c d
  pure (x * 100 + y)

/-- Parse the UTC-offset tail of an ISO datetime string: empty, `±HH:MM` or
`±HHMM`; result in minutes. -/
def parseOffsetChars : List Char → Option (Option Int)
  | [] => some none
  | [sg, a, b, ':', c, d] => do
      let h ← twoDigits a b
      let m ← twoDigits c d
      if sg = '+' then some (some (h * 60 + m))
      else if sg = '-' then some (some (-(h * 60 + m)))
      else none
  | [sg, a, b, c, d] => do
      let h ← twoDigits a b
      let m ← twoDigits c d
      if sg = '+' then some (some (h * 60 + m))
      else if sg = '-' then some (some (-(h * 60 + m)))
      else none
  | _ => none

/-- Parse the `HH:MM:SS[±offset]` tail of an ISO datetime string: seconds
within the day plus the optional offset. -/
def parseTimeChars : List Char → Option (Int × Option Int)
  | h1 :: h2 :: ':' :: m1 :: m2 :: ':' :: s1 :: s2 :: off => do
      let h ← twoDigits h1 h2
      let m ← twoDigits m1 m2
      let s ← twoDigits s1 s2
      if h ≤ 23 && m ≤ 59 && s ≤ 59 then
        let tz ← parseOffsetChars off
        pure (h * 3600 + m * 60 + s, tz)
      else none
  | [h1, h2, ':', m1, m2] => do
      let h ← twoDigits h1 h2
      let m ← twoDigits m1 m2
      if h ≤ 23 && m ≤ 59 then pure (h * 3600 + m * 60, none) else none
  | _ => none

/-- `datetime.fromisoformat`, for the subset of formats exchanged with the
transport API: `YYYY-MM-DD`, optionally followed by `T` or a space and
`HH:MM[:SS]`, optionally followed by a `±HH:MM`/`±HHMM` offset. -/
def fromisoformat (s : String) : Option PyDateTime :=
  match s.data with
  | [y1, y2, y3, y4, '-', m1, m2, '-', d1, d2] => do
      let y ← fourDigits y1 y2 y3 y4
      let m ← twoDigits m1 m2
      let d ← twoDigits d1 d2
      if 1 ≤ m && m ≤ 12 && 1 ≤ d && d ≤ daysInMonth y m then
        pure ⟨y, m, d, 0, none⟩
      else none
  | y1 :: y2 :: y3 :: y4 :: '-' :: m1 :: m2 :: '-' :: d1 :: d2 :: sep :: rest => do
      if sep = 'T' || sep = ' ' then
        let y ← fourDigits y1 y2 y3 y4
        let m ← twoDigits m1 m2
        let d ← twoDigits d1 d2
        if 1 ≤ m && m ≤ 12 && 1 ≤ d && d ≤ daysInMonth y m then
          let (sod, tz) ← parseTimeChars rest
          pure ⟨y, m, d, sod, tz⟩
        else none
      else none
  | _ => none

/-- Zero-padded two-digit rendering of `0 ≤ n < 100`. -/
def pad2 (n : Int) : String :=
  if n < 10 then "0" ++ toString n else toString n

/-- `strftime('%H:%M:%S')` of a time given as seconds within the day. -/
def fmtTimeOfDay (sod : Int) : String :=
  pad2 (sod / 3600) ++ ":" ++ pad2 ((sod / 60) % 60) ++ ":" ++ pad2 (sod % 60)

/-- `strftime('%Y-%m-%d')` of a parsed datetime. -/
def fmtDate (t : PyDateTime) : String :=
  toString t.year ++ "-" ++ pad2 t.month ++ "-" ++ pad2 t.day

/-- `strftime('%H:%M:%S')` of a parsed datetime. -/
def fmtTime (t : PyDateTime) : String := fmtTimeOfDay t.sod

def strOrNull : Option String → Json
  | some s => .str s
  | none => .null

def intOrNull : Option Int → Json
  | some n => .int n
  | none => .null

/-! ## connections.py — the connection record normalizer -/

/-- `timestamp_to_time_format` (connections.py line 71, identical copy in
station_board.py line 33): `None` stays `None`; an integer Unix timestamp is
converted to local wall-clock `HH:MM:SS` (`off` is the machine's UTC offset
in seconds); any other value raises inside and is caught, giving `None`. -/
def timestamp_to_time_format (off : Int) (v : Json) : Option String :=
  match v with
  | .null => none
  | .int ts => some (fmtTimeOfDay ((ts + off) % 86400))
  | _ => none

/-- `parse_iso_datetime` (connections.py line 93): falsy input gives `None`;
a string is parsed after replacing `Z` with `+00:00` (parse failure is
caught, giving `None`); a truthy non-string raises `TypeError`, which the
function does not catch. -/
def parse_iso_datetime (v : Json) : Except String (Option PyDateTime) :=
  if !v.truthy then .ok none
  else match v with
    | .str s => .ok (fromisoformat (pyReplaceZ s))
    | _ => .error "TypeError"

/-- Parse `HH:MM:SS` by splitting on `:` into exactly three `int(...)`
fields (any failure is a `ValueError`, caught by `parse_duration`). -/
def parseHMS (t : String) : Option (Int × Int × Int) :=
  match splitChar ':' t.data with
  | [a, b, c] => do
      let h ← pyParseInt a
      let m ← pyParseInt b
      let s ← pyParseInt c
      pure (h, m, s)
  | _ => none

/-- `parse_duration` (connections.py line 113): `[DDd]HH:MM:SS` to rounded
total minutes.  Falsy input gives `None`; `ValueError`/`AttributeError` are
caught (`None`); `'d' in n` on an integer raises an uncaught `TypeError`.
`round` is Python's half-to-even on `days*1440 + h*60 + m + s/60`. -/
def parse_duration (v : Json) : Except String (Option Int) :=
  if !v.truthy then .ok none
  else match v with
  | .str s =>
      if (splitChar 'd' s.data).length ≥ 2 then
        match splitChar 'd' s.data with
        | [daysPart, timePart] =>
            match pyParseInt daysPart, parseHMS timePart with
            | some days, some (h, m, sec) =>
                .ok (some (pyRound60 ((days * 1440 + h * 60 + m) * 60 + sec)))
            | _, _ => .ok none
        | _ => .ok none
      else
        match parseHMS s with
        | some (h, m, sec) => .ok (some (pyRound60 ((h * 60 + m) * 60 + sec)))
        | none => .ok none
  | .int _ => .error "TypeError"
  | _ => .ok none

/-- `calculate_delay_from_timestamp` (connections.py line 146): the delay in
minutes between a scheduled ISO string and an actual Unix timestamp,
rounded half to even; every exception inside is caught, giving `None`.
The timezone juggling of the source cancels out: the actual time is stamped
with the schedule's own tzinfo (or both are made naive), so the subtraction
always measures local wall-clock `fromtimestamp` output (epoch + machine
offset `off`) against the schedule's wall-clock seconds. -/
def calculate_delay_from_timestamp (off : Int) (schedV tsV : Json) : Option Int :=
  if !schedV.truthy || tsV == Json.null then none
  else
    match schedV with
    | .str s =>
        match fromisoformat (pyReplaceZ s) with
        | none => none
        | some sched =>
            match tsV with
            | .int ts => some (pyRound60 ((ts + off) - sched.wallSecs))
            | _ => none
    | _ => none

/-- The values written for one journey-bearing leg by the per-leg loop of
`process_connection` (connections.py lines 302-369), as
`(key suffix, value)` pairs in write order.  All fallible lookups happen
here, in the source's order; the dict writes themselves are pure, so
separating them is faithful. -/
def sectionVals (off : Int) (sec : Json) : Except String (List (String × Json)) := do
  let journey ← pyIndex sec "journey"
  let cat ← safe_get journey "category" (.str "")
  let num ← safe_get journey "number" (.str "")
  let op ← safe_get journey "operator" (.str "")
  let section_departure ← safe_get sec "departure" (.obj [])
  let section_from ← safe_get section_departure "station" (.obj [])
  let sfid ← safe_get section_from "id" (.str "")
  let sfname ← safe_get section_from "name" (.str "")
  let dept_str ← safe_get section_departure "departure"
  let dept_ts ← safe_get section_departure "departureTimestamp"
  let dept_time ←
    match timestamp_to_time_format off dept_ts with
    | some t => pure (some t)
    | none => do
        let dt ← parse_iso_datetime dept_str
        pure (dt.map fmtTime)
  let dd0 ← safe_get section_departure "delay"
  let dd := if dd0 == Json.null && dept_ts.truthy && dept_str.truthy
    then intOrNull (calculate_delay_from_timestamp off dept_str dept_ts)
    else dd0
  let dplat ← safe_get section_departure "platform"
  let section_arrival ← safe_get sec "arrival" (.obj [])
  let section_to ← safe_get section_arrival "station" (.obj [])
  let stid ← safe_get section_to "id" (.str "")
  let stname ← safe_get section_to "name" (.str "")
  let arr_str ← safe_get section_arrival "arrival"
  let arr_ts ← safe_get section_arrival "arrivalTimestamp"
  let arr_time ←
    match timestamp_to_time_format off arr_ts with
    | some t => pure (some t)
    | none => do
        let dt ← parse_iso_datetime arr_str
        pure (dt.map fmtTime)
  let ad0 ← safe_get section_arrival "delay"
  let ad := if ad0 == Json.null && arr_ts.truthy && arr_str.truthy
    then intOrNull (calculate_delay_from_timestamp off arr_str arr_ts)
    else ad0
  let aplat ← safe_get section_arrival "platform"
  let fields : List (String × Json) := [
    ("_category", cat), ("_number", num), ("_operator", op),
    ("_from_id", sfid), ("_from_name", sfname),
    ("_departure_time", strOrNull dept_time),
    ("_departure_timestamp", strOrNull dept_time),
    ("_departure_delay", dd), ("_departure_platform", dplat),
    ("_to_id", stid), ("_to_name", stname),
    ("_arrival_time", strOrNull arr_time),
    ("_arrival_timestamp", strOrNull arr_time),
    ("_arrival_delay", ad), ("_arrival_platform", aplat)]
  if dd != Json.null && ad != Json.null then do
    let dc ← pySub ad dd
    pure (fields ++ [("_delay_change", dc)])
  else pure fields

/-- One iteration of the per-leg loop: sections that are null or have no
`journey` key are skipped; otherwise the `section_{idx}_*` columns are
written in order.  `idx` is the 1-based leg index. -/
def addOneSection (off : Int) (r : Row) (idx : Nat) (sec : Json) :
    Except String Row := do
  if sec != Json.null then
    let hasJ ← pyContains sec "journey"
    if hasJ then do
      let kvs ← sectionVals off sec
      pure (kvs.foldl
        (fun acc sv => setField acc ("section_" ++ (toString idx ++ sv.1)) sv.2) r)
    else pure r
  else pure r

/-- The per-leg loop of `process_connection` (connections.py lines 302-369)
over all sections. -/
def addSectionFields (off : Int) : Row → Nat → List Json → Except String Row
  | r, _, [] => .ok r
  | r, idx, sec :: rest => do
      let r' ← addOneSection off r idx sec
      addSectionFields off r' (idx + 1) rest

/-- `process_connection` (connections.py line 190): flattens one raw
connection item into one record.  `nowDate`/`nowTime` stand for
`datetime.now()` at collection time; `off` is the machine's UTC offset in
seconds.  Exceptions that escape the Python function are modelled by
`Except.error` (the caller catches them and skips the record). -/
def process_connection (off : Int) (nowDate nowTime : String) (connection : Json) :
    Except String Row := do
  let from_data ← safe_get connection "from" (.obj [])
  let to_data ← safe_get connection "to" (.obj [])
  let from_station ← safe_get from_data "station" (.obj [])
  let to_station ← safe_get to_data "station" (.obj [])
  let departure_str ← safe_get from_data "departure"
  let arrival_str ← safe_get to_data "arrival"
  let departure_timestamp ← safe_get from_data "departureTimestamp"
  let arrival_timestamp ← safe_get to_data "arrivalTimestamp"
  let departure_dt ← parse_iso_datetime departure_str
  let arrival_dt ← parse_iso_datetime arrival_str
  let departure_date := strOrNull (departure_dt.map fmtDate)
  let arrival_date := strOrNull (arrival_dt.map fmtDate)
  let departure_time :=
    match timestamp_to_time_format off departure_timestamp with
    | some t => some t
    | none => departure_dt.map fmtTime
  let arrival_time :=
    match timestamp_to_time_format off arrival_timestamp with
    | some t => some t
    | none => arrival_dt.map fmtTime
  let dep_delay0 ← safe_get from_data "delay"
  let arr_delay0 ← safe_get to_data "delay"
  let departure_delay :=
    if dep_delay0 == Json.null && departure_timestamp != Json.null && departure_str.truthy
    then intOrNull (calculate_delay_from_timestamp off departure_str departure_timestamp)
    else dep_delay0
  let arrival_delay :=
    if arr_delay0 == Json.null && arrival_timestamp != Json.null && arrival_str.truthy
    then intOrNull (calculate_delay_from_timestamp off arrival_str arrival_timestamp)
    else arr_delay0
  let travel_delay ←
    if departure_delay != Json.null && arrival_delay != Json.null
    then pySub arrival_delay departure_delay
    else pure Json.null
  let duration_str ← safe_get connection "duration"
  let duration_minutes ← parse_duration duration_str
  let sections0 ← safe_get connection "sections" (.arr [])
  let sections ←
    match sections0 with
    | .null => pure ([] : List Json)
    | .arr xs => pure xs
    | _ => Except.error "TypeError"
  let transfers0 : Int :=
    if !sections.isEmpty then
      ((sections.filter (fun s => s != Json.null)).length : Int) - 1
    else 0
  let transfers := if transfers0 < 0 then 0 else transfers0
  let fsid ← safe_get from_station "id" (.str "")
  let fsname ← safe_get from_station "name" (.str "")
  let tsid ← safe_get to_station "id" (.str "")
  let tsname ← safe_get to_station "name" (.str "")
  let dplatform ← safe_get from_data "platform"
  let aplatform ← safe_get to_data "platform"
  let cap1 ← safe_get connection "capacity1st"
  let cap2 ← safe_get connection "capacity2nd"
  let base : Row := [
    ("collection_date", .str nowDate),
    ("collection_time", .str nowTime),
    ("from_station_id", fsid),
    ("from_station_name", fsname),
    ("to_station_id", tsid),
    ("to_station_name", tsname),
    ("departure_date", departure_date),
    ("arrival_date", arrival_date),
    ("departure_time", strOrNull departure_time),
    ("arrival_time", strOrNull arrival_time),
    ("departure_timestamp", strOrNull departure_time),
    ("arrival_timestamp", strOrNull arrival_time),
    ("duration_minutes", intOrNull duration_minutes),
    ("duration_str", duration_str),
    ("transfers", .int transfers),
    ("departure_delay", departure_delay),
    ("arrival_delay", arrival_delay),
    ("travel_delay", travel_delay),
    ("departure_platform", dplatform),
    ("arrival_platform", aplatform),
    ("capacity1st", cap1),
    ("capacity2nd", cap2)]
  let cats ← sections.foldlM (fun (acc : List Json) sec => do
      if sec != Json.null then
        let hasJ ← pyContains sec "journey"
        if hasJ then do
          let j ← pyIndex sec "journey"
          let c ← safe_get j "category" (.str "")
          if c.truthy then pure (acc ++ [c]) else pure acc
        else pure acc
      else pure acc) []
  let catStrs ← cats.mapM (fun v =>
      match v with
      | Json.str s => Except.ok s
      | _ => Except.error "TypeError")
  let r1 := setField base "products" (.str (joinSep ", " catStrs))
  addSectionFields off r1 1 sections

/-! ## api_client.py — rate limiting, caching, retries

Module-level mutable state (`REQUEST_COUNTER`, `RATE_LIMIT_EXCEEDED`,
`API_CACHE`) becomes an explicit `ApiState` record.  Wall-clock time is an
integer number of seconds threaded through the functions; `time.sleep`
advances it.  The random 0.5-1s jitter before each HTTP call is an
uninterpreted per-attempt amount `jit`.  The network is a map from attempt
number to the response received; HTTP 200 bodies are taken to be parseable
JSON (non-200 2xx statuses, which the source would loop on forever, are not
modelled). -/

inductive Endpoint where
  | connections
  | stationboard
  | locations
deriving Repr, DecidableEq

def endpointName : Endpoint → String
  | .connections => "connections"
  | .stationboard => "stationboard"
  | .locations => "locations"

/-- `MAX_REQUESTS_PER_DAY` (api_client.py line 35): `locations` has no
configured daily limit. -/
def MAX_REQUESTS_PER_DAY : Endpoint → Option Nat
  | .connections => some 1000
  | .stationboard => some 10080
  | .locations => none

def MAX_RETRIES : Nat := 3
def INITIAL_BACKOFF : Int := 5
def MAX_BACKOFF : Int := 60
def CACHE_EXPIRY : Int := 3600

/-- The module-level mutable state of api_client.py: per-endpoint request
counters with their reset date, the per-endpoint `RATE_LIMIT_EXCEEDED`
flags with the single shared `reset_time`, and the response cache (key,
payload, `time.time()` at store time). -/
structure ApiState where
  reqConnections : Nat
  reqStationboard : Nat
  reqLocations : Nat
  lastReset : Int
  rlConnections : Bool
  rlStationboard : Bool
  rlLocations : Bool
  rlResetTime : Int
  cache : List (String × Json × Int)
deriving Repr

def ApiState.getCount (s : ApiState) : Endpoint → Nat
  | .connections => s.reqConnections
  | .stationboard => s.reqStationboard
  | .locations => s.reqLocations

def ApiState.incCount (s : ApiState) : Endpoint → ApiState
  | .connections => { s with reqConnections := s.reqConnections + 1 }
  | .stationboard => { s with reqStationboard := s.reqStationboard + 1 }
  | .locations => { s with reqLocations := s.reqLocations + 1 }

def ApiState.getFlag (s : ApiState) : Endpoint → Bool
  | .connections => s.rlConnections
  | .stationboard => s.rlStationboard
  | .locations => s.rlLocations

def ApiState.setFlag (s : ApiState) : Endpoint → Bool → ApiState
  | .connections, b => { s with rlConnections := b }
  | .stationboard, b => { s with rlStationboard := b }
  | .locations, b => { s with rlLocations := b }

/-- `datetime.now().date()` as a day number of the integer clock. -/
def dateOf (now : Int) : Int := Int.fdiv now 86400

/-- `_reset_counter_if_new_day` (api_client.py line 64). -/
def _reset_counter_if_new_day (today : Int) (s : ApiState) : ApiState :=
  if s.lastReset < today then
    { s with reqConnections := 0, reqStationboard := 0, reqLocations := 0,
             lastReset := today }
  else s

/-- `_check_rate_limit` (api_client.py line 75): day rollover first; then,
if this endpoint's flag is armed, block unless `now` is strictly past the
shared `reset_time` (in which case the flag is cleared and the quota check
proceeds); endpoints without a configured limit always pass; otherwise pass
iff the counter is strictly below the limit.  Returns the verdict together
with the mutated state. -/
def _check_rate_limit (now : Int) (e : Endpoint) (s : ApiState) : Bool × ApiState :=
  let s := _reset_counter_if_new_day (dateOf now) s
  let quota := fun (s' : ApiState) =>
    match MAX_REQUESTS_PER_DAY e with
    | none => (true, s')
    | some L => (decide (s'.getCount e < L), s')
  if s.getFlag e then
    if now > s.rlResetTime then quota (s.setFlag e false)
    else (false, s)
  else quota s

def cacheGet : List (String × Json × Int) → String → Option (Json × Int)
  | [], _ => none
  | (k, d, t) :: rest, key => if k = key then some (d, t) else cacheGet rest key

def cacheSet : List (String × Json × Int) → String → Json → Int → List (String × Json × Int)
  | [], k, d, t => [(k, d, t)]
  | (k', d', t') :: rest, k, d, t =>
      if k' = k then (k, d, t) :: rest else (k', d', t') :: cacheSet rest k d t

/-- The cache consultation at the top of `_make_request`: a stored entry
counts only while strictly younger than `CACHE_EXPIRY` seconds. -/
def cacheFresh (c : List (String × Json × Int)) (key : String) (now : Int) : Option Json :=
  match cacheGet c key with
  | some (d, ts) => if now - ts < CACHE_EXPIRY then some d else none
  | none => none

/-- `json.dumps` of a query-parameter value (the parameters of this client
are strings and ints; escaping inside strings is not needed for them). -/
def serParamVal : Json → String
  | .str s => "\"" ++ s ++ "\""
  | .int n => toString n
  | .null => "null"
  | _ => ""

/-- `json.dumps(params, sort_keys=True)`: serialize the dict with its keys
in ascending order. -/
def dumpsSorted (params : List (String × Json)) : String :=
  let sorted := params.insertionSort (fun a b => a.1 ≤ b.1)
  "\x7b" ++ joinSep ", "
    (sorted.map (fun kv => "\"" ++ kv.1 ++ "\": " ++ serParamVal kv.2)) ++ "\x7d"

/-- `cache_key` (api_client.py line 121). -/
def cache_key (url : String) (params : List (String × Json)) : String :=
  url ++ "_" ++ dumpsSorted params

/-- The outcome of one HTTP GET: a 200 with a parsed JSON body, a 429 with
an optional `Retry-After` header value, or anything that ends up in the
`except RequestException` branch (a non-2xx/non-429 status raised by
`raise_for_status`, or a transport failure). -/
inductive HttpResponse where
  | ok (body : Json)
  | tooMany (retryAfter : Option String)
  | fail (msg : String)
deriving Repr

/-- Result of one `_make_request` call: the returned JSON, the final module
state, the number of network calls performed, the backoff sleeps performed
(excluding the sub-second jitters), whether a 200 response was obtained
over the network, and the clock at return. -/
structure ReqResult where
  result : Json
  state : ApiState
  calls : Nat
  waits : List Int
  succeeded : Bool
  endTime : Int
deriving Repr

def errObj (msg : String) : Json := .obj [("error", .str msg)]

/-- Arming of the cooldown on a 429 (api_client.py lines 177-179): sets this
endpoint's flag and overwrites the shared `reset_time`. -/
def armRateLimit (e : Endpoint) (now wait : Int) (s : ApiState) : ApiState :=
  { s.setFlag e true with rlResetTime := now + wait }

/-- The wait before a 429 retry (api_client.py lines 166-173): the parsed
`Retry-After` header when present and parseable, else the current backoff. -/
def retryWait (retryAfter : Option String) (backoff : Int) : Int :=
  match retryAfter with
  | some ra => (pyParseInt ra).getD backoff
  | none => backoff

/-- The `while retries <= MAX_RETRIES` loop of `_make_request`
(api_client.py lines 137-206).  `fuel` only bounds the recursion; every
iteration either returns or increments `retries`, so `MAX_RETRIES + 2` fuel
is never exhausted. -/
def requestLoop (env : Nat → HttpResponse) (jit : Nat → Int) (e : Endpoint) (key : String) :
    Nat → Nat → Int → Int → ApiState → Nat → List Int → ReqResult
  | 0, _, _, now, s, attempt, waits =>
      ⟨errObj ("Failed after " ++ toString MAX_RETRIES ++ " retries"), s, attempt, waits,
        false, now⟩
  | fuel + 1, retries, backoff, now₀, s, attempt, waits =>
      if retries > MAX_RETRIES then
        ⟨errObj ("Failed after " ++ toString MAX_RETRIES ++ " retries"), s, attempt, waits,
          false, now₀⟩
      else
        let now := now₀ + jit attempt
        match env attempt with
        | .ok body =>
            let s := s.incCount e
            let s := { s with cache := cacheSet s.cache key body now }
            ⟨body, s, attempt + 1, waits, true, now⟩
        | .tooMany retryAfter =>
            let wait := retryWait retryAfter backoff
            let s := armRateLimit e now wait s
            if retries + 1 ≤ MAX_RETRIES then
              requestLoop env jit e key fuel (retries + 1) (min (backoff * 2) MAX_BACKOFF)
                (now + wait) s (attempt + 1) (waits ++ [wait])
            else
              ⟨errObj ("Rate limit exceeded after " ++ toString MAX_RETRIES ++ " retries"),
                s, attempt + 1, waits, false, now⟩
        | .fail msg =>
            if retries + 1 ≤ MAX_RETRIES then
              requestLoop env jit e key fuel (retries + 1) (min (backoff * 2) MAX_BACKOFF)
                (now + backoff) s (attempt + 1) (waits ++ [backoff])
            else
              ⟨errObj msg, s, attempt + 1, waits, false, now⟩

/-- `_make_request` (api_client.py line 108): fresh cache hit returns the
stored payload untouched; otherwise the rate check runs (mutating the
state) and, on refusal, an error dict is returned with no network call;
otherwise the retry loop runs. -/
def _make_request (env : Nat → HttpResponse) (jit : Nat → Int) (url : String)
    (params : List (String × Json)) (e : Endpoint) (now : Int) (s : ApiState) : ReqResult :=
  match cacheFresh s.cache (cache_key url params) now with
  | some d => ⟨d, s, 0, [], false, now⟩
  | none =>
      let (ok?, s') := _check_rate_limit now e s
      if ok? then
        requestLoop env jit e (cache_key url params) (MAX_RETRIES + 2) 0 INITIAL_BACKOFF now s' 0 []
      else ⟨errObj ("Rate limit exceeded for " ++ endpointName e), s', 0, [], false, now⟩

/-! ## station_board.py — station board collection and normalization -/

/-- `parse_iso_datetime` (station_board.py line 107): the station-board
variant returning a `(date, time)` pair of strings (`None, None` on falsy
input or parse failure; truthy non-string raises an uncaught `TypeError`). -/
def parse_iso_datetime_sb (v : Json) : Except String (Json × Json) :=
  if !v.truthy then .ok (.null, .null)
  else match v with
  | .str s =>
      match fromisoformat (pyReplaceZ s) with
      | some dt => .ok (.str (fmtDate dt), .str (fmtTime dt))
      | none => .ok (.null, .null)
  | _ => .error "TypeError"

/-- `find_station_in_pass_list` (station_board.py line 128): first dict stop
whose `station.id` equals the requested id; `None` (here `Json.null`) when
the pass list is falsy, not a list, or has no such stop.  A dict stop with a
non-dict `station` raises out of the function. -/
def find_station_in_pass_list (pass_list : Json) (station_id : String) : Except String Json :=
  match pass_list with
  | .arr (s₀ :: rest) => go (s₀ :: rest)
  | _ => .ok .null
where
  go : List Json → Except String Json
    | [] => .ok .null
    | stop :: rest =>
      match stop with
      | .obj fs => do
          let station ← safe_get (.obj fs) "station" (.obj [])
          let sid ← safe_get station "id"
          if sid == Json.str station_id then pure (.obj fs) else go rest
      | _ => go rest

/-- The inline delay derivation of `process_stationboard_entry`
(station_board.py lines 229-242): `int((actual - scheduled).total_seconds()
/ 60)` — truncation toward zero, not rounding — from two ISO strings; every
exception inside this `try` (parse failure, non-string operand,
aware/naive subtraction mismatch) is caught, leaving the delay `None`. -/
def sbDeriveDelay (schedV actualV : Json) : Option Int :=
  match schedV, actualV with
  | .str a, .str b =>
      match fromisoformat (pyReplaceZ a), fromisoformat (pyReplaceZ b) with
      | some s, some t =>
          match s.tzMin, t.tzMin with
          | none, none => some (pyTrunc60 (t.wallSecs - s.wallSecs))
          | some o1, some o2 =>
              some (pyTrunc60 ((t.wallSecs - 60 * o2) - (s.wallSecs - 60 * o1)))
          | _, _ => none
      | _, _ => none
  | _, _ => none

/-- Python `len(...)` for the values met by the pass-list block. -/
def pyLen : Json → Except String Nat
  | .arr xs => .ok xs.length
  | .obj fs => .ok fs.length
  | .str s => .ok s.length
  | _ => .error "TypeError"

/-- The index search of the prev/next-stop block (station_board.py lines
273-278): first index whose `station.id` matches; unlike
`find_station_in_pass_list` there is no dict check, so `safe_get` on a
non-dict stop raises. -/
def findCurrentIdx (station_id : String) : List Json → Nat → Except String (Option Nat)
  | [], _ => .ok none
  | stop :: rest, i => do
      let st ← safe_get stop "station" (.obj [])
      let sid ← safe_get st "id"
      if sid == Json.str station_id then pure (some i)
      else findCurrentIdx station_id rest (i + 1)

/-- The prev/next-stop enrichment of `process_stationboard_entry`
(station_board.py lines 271-298). -/
def addPrevNext (station_id : String) (pass_list : Json) (base : Row) : Except String Row := do
  if pass_list.truthy then do
    let n ← pyLen pass_list
    if n > 1 then
      match pass_list with
      | .arr stops => do
          let idxOpt ← findCurrentIdx station_id stops 0
          match idxOpt with
          | none => pure base
          | some ci => do
              let r ←
                if ci > 0 then do
                  let prev := stops.getD (ci - 1) Json.null
                  let pst ← safe_get prev "station" (.obj [])
                  let pid ← safe_get pst "id" (.str "")
                  let pname ← safe_get pst "name" (.str "")
                  let r := setField base "prev_station_id" pid
                  let r := setField r "prev_station_name" pname
                  let dv ← safe_get prev "departure"
                  let (_, dtime) ← parse_iso_datetime_sb dv
                  pure (setField r "prev_station_departure_time" dtime)
                else pure base
              if ci + 1 < stops.length then do
                let next := stops.getD (ci + 1) Json.null
                let nst ← safe_get next "station" (.obj [])
                let nid ← safe_get nst "id" (.str "")
                let nname ← safe_get nst "name" (.str "")
                let r := setField r "next_station_id" nid
                let r := setField r "next_station_name" nname
                let av ← safe_get next "arrival"
                let (_, atime) ← parse_iso_datetime_sb av
                pure (setField r "next_station_arrival_time" atime)
              else pure r
      | _ => .error "AttributeError"
    else pure base
  else pure base

/-- `process_stationboard_entry` (station_board.py line 153): flattens one
raw station-board item into one record.  Note the single `delay` column:
the produced schema has no `departure_delay`/`arrival_delay` fields. -/
def process_stationboard_entry (off : Int) (nowDate nowTime : String) (entry : Json)
    (station_id : String) : Except String Row := do
  let stop ← safe_get entry "stop" (.obj [])
  let station ← safe_get stop "station" (.obj [])
  let train_category ← safe_get entry "category" (.str "")
  let train_number ← safe_get entry "number" (.str "")
  let train_operator ← safe_get entry "operator" (.str "")
  let train_to ← safe_get entry "to" (.str "")
  let departure_str ← safe_get stop "departure"
  let departure_timestamp ← safe_get stop "departureTimestamp"
  let arrival_str0 ← safe_get stop "arrival"
  let arrival_timestamp0 ← safe_get stop "arrivalTimestamp"
  let delay0 ← safe_get stop "delay"
  let platform0 ← safe_get stop "platform" (.str "")
  let prognosis ← safe_get stop "prognosis" (.obj [])
  let prognosis_departure ← safe_get prognosis "departure"
  let prognosis_arrival0 ← safe_get prognosis "arrival"
  let prognosis_platform0 ← safe_get prognosis "platform"
  let pass_list ← safe_get entry "passList" (.arr [])
  let css ← find_station_in_pass_list pass_list station_id
  let (arrival_str, _arrival_timestamp, delay1, platform, prognosis_arrival, prognosis_platform) ←
    if css.truthy then do
      let a ← if !arrival_str0.truthy then safe_get css "arrival" else pure arrival_str0
      let ats ← if !arrival_timestamp0.truthy then safe_get css "arrivalTimestamp"
                else pure arrival_timestamp0
      let d ← if delay0 == Json.null then safe_get css "delay" else pure delay0
      let p ← if !platform0.truthy then safe_get css "platform" (.str "") else pure platform0
      let cp ← safe_get css "prognosis" (.obj [])
      let pa ← if !prognosis_arrival0.truthy then safe_get cp "arrival"
               else pure prognosis_arrival0
      let pp ← if !prognosis_platform0.truthy then safe_get cp "platform"
               else pure prognosis_platform0
      pure (a, ats, d, p, pa, pp)
    else
      pure (arrival_str0, arrival_timestamp0, delay0, platform0, prognosis_arrival0,
        prognosis_platform0)
  let (departure_date, departure_time) ← parse_iso_datetime_sb departure_str
  let (arrival_date, arrival_time) ← parse_iso_datetime_sb arrival_str
  let pdep ← parse_iso_datetime_sb prognosis_departure
  let prognosis_departure_time := pdep.2
  let parr ← parse_iso_datetime_sb prognosis_arrival
  let prognosis_arrival_time := parr.2
  let delay :=
    if delay1 == Json.null && arrival_str.truthy && prognosis_arrival.truthy then
      intOrNull (sbDeriveDelay arrival_str prognosis_arrival)
    else if delay1 == Json.null && departure_str.truthy && prognosis_departure.truthy then
      intOrNull (sbDeriveDelay departure_str prognosis_departure)
    else delay1
  let sid ← safe_get station "id" (.str "")
  let sname ← safe_get station "name" (.str "")
  let cap1 ← safe_get entry "capacity1st"
  let cap2 ← safe_get entry "capacity2nd"
  let base : Row := [
    ("collection_date", .str nowDate),
    ("collection_time", .str nowTime),
    ("station_id", sid),
    ("station_name", sname),
    ("train_category", train_category),
    ("train_number", train_number),
    ("train_operator", train_operator),
    ("train_to", train_to),
    ("departure_date", departure_date),
    ("departure_time", departure_time),
    ("arrival_date", arrival_date),
    ("arrival_time", arrival_time),
    ("departure_timestamp", strOrNull (timestamp_to_time_format off departure_timestamp)),
    ("arrival_timestamp", strOrNull (timestamp_to_time_format off _arrival_timestamp)),
    ("delay", delay),
    ("platform", platform),
    ("prognosis_departure", prognosis_departure_time),
    ("prognosis_arrival", prognosis_arrival_time),
    ("prognosis_platform", prognosis_platform),
    ("capacity1st", cap1),
    ("capacity2nd", cap2)]
  addPrevNext station_id pass_list base

/-- `get_station_board_direct` (station_board.py line 72): a bare
`requests.get` with no quota check, no cooldown check, no cache and no
retry; the module state is passed through untouched, one network call is
made, and any exception (including `raise_for_status` on a non-2xx status)
is caught and replaced by a payload with an empty `stationboard` list. -/
def get_station_board_direct (resp : HttpResponse) (s : ApiState) : Json × ApiState × Nat :=
  match resp with
  | .ok body => (body, s, 1)
  | _ => (Json.obj [("stationboard", Json.arr [])], s, 1)

/-- `extract_data_from_stationboard` (station_board.py line 303): process
each entry of the payload's `stationboard` list, skipping entries whose
processing raises. -/
def extract_data_from_stationboard (off : Int) (nowDate nowTime : String)
    (api_response : Json) (station_id : String) : Except String (List Row) := do
  let sb ← safe_get api_response "stationboard" (.arr [])
  match sb with
  | .arr entries =>
      pure (entries.foldl (fun acc entry =>
        match process_stationboard_entry off nowDate nowTime entry station_id with
        | .ok r => acc ++ [r]
        | .error _ => acc) [])
  | _ => .error "TypeError"

/-- The collection loop of `collect_station_data` (station_board.py lines
377-410), one `(request_date, request_time, response)` triple per sampled
slot; every request goes through `get_station_board_direct`, every entry is
tagged `board_type = 'arrival'`, and a slot whose extraction raises is
logged and skipped.  Returns the accumulated entries, the threaded module
state, and the number of network calls. -/
def collect_station_entries (off : Int) (nowDate nowTime : String) (station_id : String)
    (slots : List (String × String × HttpResponse)) (s : ApiState) :
    List Row × ApiState × Nat :=
  slots.foldl (fun acc slot =>
    let (dateStr, timeSlot, resp) := slot
    let (entries, st, calls) := acc
    let (api_response, st', c) := get_station_board_direct resp st
    match extract_data_from_stationboard off nowDate nowTime api_response station_id with
    | .ok rows =>
        let tagged := rows.map (fun r =>
          setField (setField (setField r "board_type" (.str "arrival"))
            "request_time" (.str timeSlot)) "request_date" (.str dateStr))
        (entries ++ tagged, st', calls + c)
    | .error _ => (entries, st', calls + c)) ([], s, 0)

/-! ## delay_analysis.py — the reconciliation engine

Dataframe rows are the same association-list records the collectors
produce (the CSV round trip is not modelled).  `pd.to_datetime` is modelled
for ISO-format string cells; on any other cell it raises, which the
per-record `try/except` of `analyze_connections_for_day` turns into a
skipped record.  `sort_values('time_diff').iloc[0]` picks a row of minimal
absolute difference; ties (which use an unstable quicksort in pandas) are
resolved here to the first minimal row in frame order. -/

def pdToDatetime (v : Json) : Except String PyDateTime :=
  match v with
  | .str s =>
      match fromisoformat s with
      | some dt => .ok dt
      | none => .error "ParserError"
  | _ => .error "TypeError"

/-- The closest-scheduled-time selection (delay_analysis.py lines 215-220
and 237-242): annotate every candidate with the absolute difference between
its `col` cell and the connection's datetime, then take a minimal one. -/
def selectClosest (connT : PyDateTime) (col : String) (rows : List Row) :
    Except String Row := do
  let diffs ← rows.mapM (fun r => do
      let t ← pdToDatetime (rowGetD r col)
      pure ((t.wallSecs - connT.wallSecs).natAbs, r))
  match diffs with
  | [] => .error "IndexError"
  | d0 :: drest =>
      pure (drest.foldl (fun best d => if d.1 < best.1 then d else best) d0).2

/-- One side of the matching (delay_analysis.py lines 203-245): filter the
board dataframe to rows of the wanted `board_type`, then to rows whose
`(train_category, train_number)` equal the leg identity; among several
candidates use the closest scheduled time when the connection row has a
truthy `dtKey` cell, else the first candidate. -/
def findBoardMatch (conn : Row) (df : List Row) (boardType : String) (cat num : Json)
    (dtKey schedCol : String) : Except String (Option Row) := do
  let filtered := df.filter (fun r => rowGetD r "board_type" == Json.str boardType)
  if filtered.length > 0 && cat.truthy && num.truthy then
    let cands := filtered.filter (fun r =>
      rowGetD r "train_category" == cat && rowGetD r "train_number" == num)
    if cands.length > 0 then
      if hasKey conn dtKey && (rowGetD conn dtKey).truthy then do
        let connT ← pdToDatetime (rowGetD conn dtKey)
        let m ← selectClosest connT schedCol cands
        pure (some m)
      else
        pure cands.head?
    else pure none
  else pure none

/-- The `while f'section_{idx+1}_category' in enhanced` loop
(delay_analysis.py lines 196-198); the fuel exceeds the number of keys, so
it never runs out. -/
def lastSectionIdx (r : Row) : Nat :=
  go (r.length + 1) 1
where
  go : Nat → Nat → Nat
    | 0, idx => idx
    | fuel + 1, idx =>
        if hasKey r ("section_" ++ toString (idx + 1) ++ "_category") then go fuel (idx + 1)
        else idx

/-- The delay-diff block (delay_analysis.py lines 256-267) for one side:
when both keys exist and both cells are non-null, write their difference. -/
def addDelayDiff (connKey sbKey diffKey : String) (enhanced : Row) : Except String Row :=
  if hasKey enhanced connKey && hasKey enhanced sbKey then
    let cd := rowGetD enhanced connKey
    let sd := rowGetD enhanced sbKey
    if notna cd && notna sd then do
      let d ← pySub sd cd
      pure (setField enhanced diffKey d)
    else pure enhanced
  else pure enhanced

/-- The copy of matched station-board fields into the enriched record
(delay_analysis.py lines 248-254), one side at a time: for a found match,
`matched.get(delayCol)` (`None` if the board row lacks that column) and
`matched.get('platform')` are written. -/
def copyMatch (delayCol sbDelayKey sbPlatKey : String) (m : Option Row) (enhanced : Row) :
    Row :=
  match m with
  | some mr =>
      setField (setField enhanced sbDelayKey (rowGetD mr delayCol)) sbPlatKey
        (rowGetD mr "platform")
  | none => enhanced

/-- The `journey_added_delay` computation (delay_analysis.py lines
269-272): `arrival_delay - departure_delay` with a missing or null operand
replaced by 0. -/
def addJourney (enhanced : Row) : Except String Row := do
  let depD := rowGetD enhanced "departure_delay" (.int 0)
  let depN := if notna depD then depD else Json.int 0
  let arrD := rowGetD enhanced "arrival_delay" (.int 0)
  let arrN := if notna arrD then arrD else Json.int 0
  let j ← pySub arrN depN
  pure (setField enhanced "journey_added_delay" j)

/-- `match_connection_with_station_board` (delay_analysis.py line 173). -/
def match_connection_with_station_board (conn : Row)
    (from_station_df to_station_df : List Row) : Except String Row := do
  let enhanced := conn
  let sec1cat := rowGetD enhanced "section_1_category"
  let sec1num := rowGetD enhanced "section_1_number"
  let lastIdx := lastSectionIdx enhanced
  let lastCat := rowGetD enhanced ("section_" ++ toString lastIdx ++ "_category")
  let lastNum := rowGetD enhanced ("section_" ++ toString lastIdx ++ "_number")
  let matched_departure ← findBoardMatch enhanced from_station_df "departure"
    sec1cat sec1num "departure_datetime" "scheduled_departure"
  let matched_arrival ← findBoardMatch enhanced to_station_df "arrival"
    lastCat lastNum "arrival_datetime" "scheduled_arrival"
  let enhanced := copyMatch "departure_delay" "sb_departure_delay" "sb_departure_platform"
    matched_departure enhanced
  let enhanced := copyMatch "arrival_delay" "sb_arrival_delay" "sb_arrival_platform"
    matched_arrival enhanced
  let enhanced ← addDelayDiff "departure_delay" "sb_departure_delay"
    "departure_delay_diff" enhanced
  let enhanced ← addDelayDiff "arrival_delay" "sb_arrival_delay"
    "arrival_delay_diff" enhanced
  addJourney enhanced

/-! ## Basic lemmas about the embedding -/

theorem rowGet_setField_ne (r : Row) (k k' : String) (v : Json) (h : k ≠ k') :
    rowGet (setField r k' v) k = rowGet r k := by
  induction r with
  | nil => simp [setField, rowGet, Ne.symm h]
  | cons p rest ih =>
      obtain ⟨pk, pv⟩ := p
      by_cases hp : pk = k'
      · subst hp
        simp only [setField, if_pos rfl, rowGet]
        rw [if_neg (Ne.symm h), if_neg (Ne.symm h)]
      · simp only [setField, if_neg hp, rowGet]
        by_cases hk : pk = k
        · simp [hk]
        · simp [hk, ih]

theorem rowGet_setField_self (r : Row) (k : String) (v : Json) :
    rowGet (setField r k v) k = some v := by
  induction r with
  | nil => simp [setField, rowGet]
  | cons p rest ih =>
      obtain ⟨pk, pv⟩ := p
      by_cases hp : pk = k
      · subst hp; simp [setField, rowGet]
      · simp [setField, hp, rowGet, ih]

theorem hasKey_setField_ne (r : Row) (k k' : String) (v : Json) (h : k ≠ k') :
    hasKey (setField r k' v) k = hasKey r k := by
  simp [hasKey, rowGet_setField_ne r k k' v h]

theorem rowGetD_setField_ne (r : Row) (k k' : String) (v d : Json) (h : k ≠ k') :
    rowGetD (setField r k' v) k d = rowGetD r k d := by
  simp [rowGetD, rowGet_setField_ne r k k' v h]

/-! ## Lemmas about the api_client state machine -/

theorem getCount_setFlag (s : ApiState) (e e' : Endpoint) (b : Bool) :
    (s.setFlag e b).getCount e' = s.getCount e' := by
  cases e <;> cases e' <;> rfl

theorem getCount_armRateLimit (s : ApiState) (e e' : Endpoint) (now wait : Int) :
    (armRateLimit e now wait s).getCount e' = s.getCount e' := by
  cases e <;> cases e' <;> rfl

theorem getFlag_armRateLimit_ne (s : ApiState) (e e' : Endpoint) (now wait : Int)
    (h : e' ≠ e) : (armRateLimit e now wait s).getFlag e' = s.getFlag e' := by
  cases e <;> cases e' <;> first
    | rfl
    | exact absurd rfl h

theorem getFlag_armRateLimit_self (s : ApiState) (e : Endpoint) (now wait : Int) :
    (armRateLimit e now wait s).getFlag e = true := by
  cases e <;> rfl

theorem rlResetTime_armRateLimit (s : ApiState) (e : Endpoint) (now wait : Int) :
    (armRateLimit e now wait s).rlResetTime = now + wait := by
  cases e <;> rfl

theorem getCount_incCount (s : ApiState) (e e' : Endpoint) :
    (s.incCount e).getCount e' = s.getCount e' + (if e' == e then 1 else 0) := by
  cases e <;> cases e' <;> rfl

theorem getCount_withCache (s : ApiState) (c : List (String × Json × Int)) (e' : Endpoint) :
    ({ s with cache := c } : ApiState).getCount e' = s.getCount e' := by
  cases e' <;> rfl

theorem getFlag_withCache (s : ApiState) (c : List (String × Json × Int)) (e' : Endpoint) :
    ({ s with cache := c } : ApiState).getFlag e' = s.getFlag e' := by
  cases e' <;> rfl

theorem getFlag_incCount (s : ApiState) (e e' : Endpoint) :
    (s.incCount e).getFlag e' = s.getFlag e' := by
  cases e <;> cases e' <;> rfl

theorem getFlag_reset (today : Int) (s : ApiState) (e' : Endpoint) :
    (_reset_counter_if_new_day today s).getFlag e' = s.getFlag e' := by
  unfold _reset_counter_if_new_day
  split <;> cases e' <;> rfl

theorem getFlag_setFlag_ne (s : ApiState) (e e' : Endpoint) (b : Bool) (h : e' ≠ e) :
    (s.setFlag e b).getFlag e' = s.getFlag e' := by
  cases e <;> cases e' <;> first
    | rfl
    | exact absurd rfl h

theorem getCount_reset_le (today : Int) (s : ApiState) (e' : Endpoint) :
    (_reset_counter_if_new_day today s).getCount e' ≤ s.getCount e' := by
  unfold _reset_counter_if_new_day
  split
  · cases e' <;> exact Nat.zero_le _
  · exact Nat.le_refl _

/-- Master lemma about the retry loop: the request counter of an endpoint
grows by exactly one when (and only when) a 200 was obtained, and then only
for the requested endpoint; other endpoints' cooldown flags are never
touched; a reported success really consumed an `ok` response and returned
its body. -/
theorem requestLoop_spec (env : Nat → HttpResponse) (jit : Nat → Int) (e : Endpoint)
    (key : String) :
    ∀ (fuel retries : Nat) (backoff now : Int) (s : ApiState) (attempt : Nat)
      (waits : List Int),
      (∀ e', (requestLoop env jit e key fuel retries backoff now s attempt waits).state.getCount e'
        = s.getCount e' +
          (if (requestLoop env jit e key fuel retries backoff now s attempt waits).succeeded
              && (e' == e) then 1 else 0)) ∧
      (∀ e', e' ≠ e →
        (requestLoop env jit e key fuel retries backoff now s attempt waits).state.getFlag e'
          = s.getFlag e') ∧
      ((requestLoop env jit e key fuel retries backoff now s attempt waits).succeeded = true →
        ∃ i body, env i = HttpResponse.ok body ∧
          (requestLoop env jit e key fuel retries backoff now s attempt waits).result = body) := by
  intro fuel
  induction fuel with
  | zero =>
      intro retries backoff now s attempt waits
      refine ⟨fun e' => ?_, fun e' _ => rfl, fun h => by simp [requestLoop] at h⟩
      simp [requestLoop]
  | succ fuel ih =>
      intro retries backoff now s attempt waits
      by_cases hret : retries > MAX_RETRIES
      · refine ⟨fun e' => ?_, fun e' _ => ?_, fun h => ?_⟩ <;>
          simp_all [requestLoop]
      · cases henv : env attempt with
        | ok body =>
            refine ⟨fun e' => ?_, fun e' he' => ?_, fun _ => ⟨attempt, body, henv, ?_⟩⟩ <;>
              simp [requestLoop, hret, henv, getCount_withCache, getCount_incCount,
                getFlag_withCache, getFlag_incCount]
        | tooMany ra =>
            by_cases hr2 : retries + 1 ≤ MAX_RETRIES
            · obtain ⟨ih1, ih2, ih3⟩ := ih (retries + 1) (min (backoff * 2) MAX_BACKOFF)
                (now + jit attempt + retryWait ra backoff)
                (armRateLimit e (now + jit attempt) (retryWait ra backoff) s)
                (attempt + 1) (waits ++ [retryWait ra backoff])
              refine ⟨fun e' => ?_, fun e' he' => ?_, fun h => ?_⟩
              · simp only [requestLoop, if_neg hret, henv, if_pos hr2]
                rw [ih1 e', getCount_armRateLimit]
              · simp only [requestLoop, if_neg hret, henv, if_pos hr2]
                rw [ih2 e' he', getFlag_armRateLimit_ne _ _ _ _ _ he']
              · simp only [requestLoop, if_neg hret, henv, if_pos hr2] at h ⊢
                exact ih3 h
            · refine ⟨fun e' => ?_, fun e' he' => ?_, fun h => ?_⟩
              · simp only [requestLoop, if_neg hret, henv, if_neg hr2]
                simp [getCount_armRateLimit]
              · simp only [requestLoop, if_neg hret, henv, if_neg hr2]
                simp [getFlag_armRateLimit_ne _ _ _ _ _ he']
              · simp only [requestLoop, if_neg hret, henv, if_neg hr2] at h
                exact Bool.noConfusion h
        | fail msg =>
            by_cases hr2 : retries + 1 ≤ MAX_RETRIES
            · obtain ⟨ih1, ih2, ih3⟩ := ih (retries + 1) (min (backoff * 2) MAX_BACKOFF)
                (now + jit attempt + backoff) s (attempt + 1) (waits ++ [backoff])
              refine ⟨fun e' => ?_, fun e' he' => ?_, fun h => ?_⟩
              · simp only [requestLoop, if_neg hret, henv, if_pos hr2]
                exact ih1 e'
              · simp only [requestLoop, if_neg hret, henv, if_pos hr2]
                exact ih2 e' he'
              · simp only [requestLoop, if_neg hret, henv, if_pos hr2] at h ⊢
                exact ih3 h
            · refine ⟨fun e' => ?_, fun e' he' => ?_, fun h => ?_⟩
              · simp only [requestLoop, if_neg hret, henv, if_neg hr2]
                simp
              · simp only [requestLoop, if_neg hret, henv, if_neg hr2]
              · simp only [requestLoop, if_neg hret, henv, if_neg hr2] at h
                exact Bool.noConfusion h

theorem reset_eq_of_today (s : ApiState) (today : Int) (h : s.lastReset = today) :
    _reset_counter_if_new_day today s = s := by
  unfold _reset_counter_if_new_day
  rw [if_neg (by omega)]

theorem rlResetTime_reset (today : Int) (s : ApiState) :
    (_reset_counter_if_new_day today s).rlResetTime = s.rlResetTime := by
  unfold _reset_counter_if_new_day
  split <;> rfl

theorem getFlag_check_ne (now : Int) (e e' : Endpoint) (s : ApiState) (h : e' ≠ e) :
    ((_check_rate_limit now e s).2).getFlag e' = s.getFlag e' := by
  unfold _check_rate_limit
  set s' := _reset_counter_if_new_day (dateOf now) s with hs'
  have hf : s'.getFlag e' = s.getFlag e' := getFlag_reset _ _ _
  by_cases h1 : s'.getFlag e = true
  · by_cases h2 : now > s'.rlResetTime
    · simp only [h1, if_pos h2, if_true]
      cases hm : MAX_REQUESTS_PER_DAY e <;>
        simp [hm, getFlag_setFlag_ne _ _ _ _ h, hf]
    · simp [h1, h2, hf]
  · simp only [Bool.not_eq_true] at h1
    cases hm : MAX_REQUESTS_PER_DAY e <;> simp [h1, hm, hf]

theorem getCount_check (now : Int) (e e' : Endpoint) (s : ApiState) :
    ((_check_rate_limit now e s).2).getCount e'
      = (_reset_counter_if_new_day (dateOf now) s).getCount e' := by
  unfold _check_rate_limit
  set s' := _reset_counter_if_new_day (dateOf now) s with hs'
  by_cases h1 : s'.getFlag e = true
  · by_cases h2 : now > s'.rlResetTime
    · simp only [h1, if_pos h2, if_true]
      cases hm : MAX_REQUESTS_PER_DAY e <;> simp [hm, getCount_setFlag]
    · simp [h1, h2]
  · simp only [Bool.not_eq_true] at h1
    cases hm : MAX_REQUESTS_PER_DAY e <;> simp [h1, hm]

theorem check_true_quota (now : Int) (e : Endpoint) (s : ApiState) (L : Nat)
    (hL : MAX_REQUESTS_PER_DAY e = some L)
    (h : (_check_rate_limit now e s).1 = true) :
    ((_check_rate_limit now e s).2).getCount e < L := by
  unfold _check_rate_limit at h ⊢
  set s' := _reset_counter_if_new_day (dateOf now) s with hs'
  by_cases h1 : s'.getFlag e = true
  · by_cases h2 : now > s'.rlResetTime
    · simp only [h1, if_pos h2, if_true, hL] at h ⊢
      simpa [getCount_setFlag] using h
    · simp [h1, h2] at h
  · simp only [Bool.not_eq_true] at h1
    simp only [h1, Bool.false_eq_true, if_false, hL] at h ⊢
    simpa using h

theorem check_denies_at_limit (now : Int) (e : Endpoint) (s : ApiState) (L : Nat)
    (hL : MAX_REQUESTS_PER_DAY e = some L)
    (hday : s.lastReset = dateOf now)
    (hcount : L ≤ s.getCount e) :
    (_check_rate_limit now e s).1 = false := by
  unfold _check_rate_limit
  rw [reset_eq_of_today s (dateOf now) hday]
  by_cases h1 : s.getFlag e = true
  · by_cases h2 : now > s.rlResetTime
    · simp [h1, h2, hL, getCount_setFlag, Nat.not_lt.mpr hcount]
    · simp [h1, h2]
  · simp only [Bool.not_eq_true] at h1
    simp [h1, hL, Nat.not_lt.mpr hcount]

theorem check_blocked (now : Int) (e : Endpoint) (s : ApiState)
    (hflag : s.getFlag e = true) (htime : ¬ now > s.rlResetTime) :
    _check_rate_limit now e s = (false, _reset_counter_if_new_day (dateOf now) s) := by
  unfold _check_rate_limit
  have hf : (_reset_counter_if_new_day (dateOf now) s).getFlag e = true := by
    rw [getFlag_reset]; exact hflag
  have ht : (_reset_counter_if_new_day (dateOf now) s).rlResetTime = s.rlResetTime :=
    rlResetTime_reset _ _
  simp [hf, ht, htime]

theorem check_clears (now : Int) (e : Endpoint) (s : ApiState)
    (hflag : s.getFlag e = true) (htime : now > s.rlResetTime) :
    ((_check_rate_limit now e s).2).getFlag e = false := by
  unfold _check_rate_limit
  have hf : (_reset_counter_if_new_day (dateOf now) s).getFlag e = true := by
    rw [getFlag_reset]; exact hflag
  have ht : (_reset_counter_if_new_day (dateOf now) s).rlResetTime = s.rlResetTime :=
    rlResetTime_reset _ _
  have hsf : ∀ t, ((_reset_counter_if_new_day (dateOf now) s).setFlag e false).getFlag e = t →
      t = false := by
    intro t h
    cases e <;> simpa [ApiState.setFlag, ApiState.getFlag] using h.symm
  cases hm : MAX_REQUESTS_PER_DAY e <;>
    simp [hf, ht, htime, hm] <;>
    cases e <;> simp [ApiState.setFlag, ApiState.getFlag]

theorem cacheGet_cacheSet_self (c : List (String × Json × Int)) (k : String) (d : Json)
    (t : Int) : cacheGet (cacheSet c k d t) k = some (d, t) := by
  induction c with
  | nil => simp [cacheSet, cacheGet]
  | cons p rest ih =>
      obtain ⟨pk, pd, pt⟩ := p
      by_cases hp : pk = k
      · subst hp; simp [cacheSet, cacheGet]
      · simp [cacheSet, cacheGet, hp, ih]

/-- `sorted(params.items())` depends only on the key-value multiset when the
keys are distinct. -/
theorem insertionSort_perm_eq (p₁ p₂ : List (String × Json))
    (hperm : p₁.Perm p₂) (hnd : (p₁.map Prod.fst).Nodup) :
    p₁.insertionSort (fun a b => a.1 ≤ b.1) = p₂.insertionSort (fun a b => a.1 ≤ b.1) := by
  haveI : IsTotal (String × Json) (fun a b => a.1 ≤ b.1) := ⟨fun a b => le_total _ _⟩
  haveI : IsTrans (String × Json) (fun a b => a.1 ≤ b.1) :=
    ⟨fun a b c h1 h2 => le_trans h1 h2⟩
  haveI : IsAntisymm (String × Json) (fun a b => a.1 < b.1) :=
    ⟨fun a b h1 h2 => absurd h2 (lt_asymm h1)⟩
  set R : (String × Json) → (String × Json) → Prop := fun a b => a.1 ≤ b.1 with hR
  have hs₁ := List.sorted_insertionSort R p₁
  have hs₂ := List.sorted_insertionSort R p₂
  have hp₁ : (p₁.insertionSort R).Perm p₁ := List.perm_insertionSort R p₁
  have hp₂ : (p₂.insertionSort R).Perm p₂ := List.perm_insertionSort R p₂
  have hmain : (p₁.insertionSort R).Perm (p₂.insertionSort R) :=
    (hp₁.trans hperm).trans hp₂.symm
  have strict : ∀ (l : List (String × Json)), l.Sorted R → (l.map Prod.fst).Nodup →
      l.Sorted (fun a b => a.1 < b.1) := by
    intro l hsort hnodup
    have hne : l.Pairwise (fun a b => a.1 ≠ b.1) := by
      have h' : (l.map Prod.fst).Pairwise (· ≠ ·) := hnodup
      exact List.pairwise_map.mp h'
    exact (hsort.and hne).imp (fun h => lt_of_le_of_ne h.1 h.2)
  have hnd₁ : ((p₁.insertionSort R).map Prod.fst).Nodup :=
    ((hp₁.map Prod.fst).symm).nodup hnd
  have hnd₂ : ((p₂.insertionSort R).map Prod.fst).Nodup :=
    (hmain.map Prod.fst).nodup hnd₁
  exact List.eq_of_perm_of_sorted hmain (strict _ hs₁ hnd₁) (strict _ hs₂ hnd₂)

theorem cache_key_perm (url : String) (p₁ p₂ : List (String × Json))
    (hperm : p₁.Perm p₂) (hnd : (p₁.map Prod.fst).Nodup) :
    cache_key url p₁ = cache_key url p₂ := by
  unfold cache_key dumpsSorted
  rw [insertionSort_perm_eq p₁ p₂ hperm hnd]

theorem make_request_hit (env : Nat → HttpResponse) (jit : Nat → Int) (url : String)
    (params : List (String × Json)) (e : Endpoint) (now : Int) (s : ApiState) (d : Json)
    (hhit : cacheFresh s.cache (cache_key url params) now = some d) :
    _make_request env jit url params e now s = ⟨d, s, 0, [], false, now⟩ := by
  unfold _make_request
  rw [hhit]

theorem make_request_miss (env : Nat → HttpResponse) (jit : Nat → Int) (url : String)
    (params : List (String × Json)) (e : Endpoint) (now : Int) (s : ApiState)
    (hmiss : cacheFresh s.cache (cache_key url params) now = none) :
    _make_request env jit url params e now s =
      (if (_check_rate_limit now e s).1 then
        requestLoop env jit e (cache_key url params) (MAX_RETRIES + 2) 0 INITIAL_BACKOFF now
          ((_check_rate_limit now e s).2) 0 []
      else
        ⟨errObj ("Rate limit exceeded for " ++ endpointName e),
          ((_check_rate_limit now e s).2), 0, [], false, now⟩) := by
  unfold _make_request
  rw [hmiss]

/-! ## Claim theorems: the API client -/

/-- C3 counterexample.  Initial state: `stationboard` is rate-limited with
`reset_time = 100`, `connections` is not limited.  A request for
`connections` at time 50 receives a 429 and then a 200.  Afterwards the
`stationboard` flag is still armed, but the shared `reset_time` has been
overwritten to 56 — the `stationboard` endpoint's cooldown deadline was
changed by a 429 on a different endpoint, contradicting the claim that every
other endpoint's cooldown state is left unchanged. -/
def c3State : ApiState := ⟨0, 0, 0, 0, false, true, false, 100, []⟩

def c3Run : ReqResult :=
  _make_request
    (fun i => if i = 0 then HttpResponse.tooMany none else HttpResponse.ok (Json.obj []))
    (fun _ => 1) "url" [] Endpoint.connections 50 c3State

/-- C3 (counterexample): a 429 on `connections` rewrites the cooldown
deadline that governs `stationboard`, whose flag is still armed: its
`resume_at` moved from 100 to 56. -/
theorem rate_limit_shared_reset_cex :
    c3State.rlStationboard = true ∧ c3State.rlResetTime = 100 ∧
    c3Run.state.rlStationboard = true ∧ c3Run.state.rlResetTime = 56 ∧
    c3Run.state.rlResetTime ≠ c3State.rlResetTime := by
  refine ⟨rfl, rfl, rfl, rfl, ?_⟩
  show (56 : Int) ≠ 100
  decide

/-- C3 (amended): the `is_limited` flags are per endpoint — a request for
`e` never changes another endpoint's flag, and a 429 arms only `e`'s flag —
but `resume_at` is one shared timestamp, overwritten to `now + wait` by any
429; while an endpoint's flag is set and the current time is not strictly
past the shared `resume_at`, a (cache-missing) request for it is refused
with no network call, and a check strictly after that time clears the
flag. -/
theorem rate_limit_cooldown_per_endpoint (env : Nat → HttpResponse) (jit : Nat → Int)
    (url : String) (params : List (String × Json)) (e e' : Endpoint) (now : Int)
    (s : ApiState) :
    (e' ≠ e → (_make_request env jit url params e now s).state.getFlag e' = s.getFlag e') ∧
    (s.getFlag e = true → ¬ now > s.rlResetTime →
      cacheFresh s.cache (cache_key url params) now = none →
      (_make_request env jit url params e now s).result
          = errObj ("Rate limit exceeded for " ++ endpointName e) ∧
        (_make_request env jit url params e now s).calls = 0) ∧
    (s.getFlag e = true → now > s.rlResetTime →
      ((_check_rate_limit now e s).2).getFlag e = false) ∧
    (∀ wait, (armRateLimit e now wait s).getFlag e = true ∧
      (armRateLimit e now wait s).rlResetTime = now + wait ∧
      (e' ≠ e → (armRateLimit e now wait s).getFlag e' = s.getFlag e')) := by
  refine ⟨?_, ?_, ?_, ?_⟩
  · intro he'
    cases hcf : cacheFresh s.cache (cache_key url params) now with
    | some d => rw [make_request_hit env jit url params e now s d hcf]
    | none =>
        rw [make_request_miss env jit url params e now s hcf]
        by_cases hchk : (_check_rate_limit now e s).1 = true
        · simp only [hchk, if_true]
          rw [(requestLoop_spec env jit e _ _ _ _ _ _ _ _).2.1 e' he']
          exact getFlag_check_ne now e e' s he'
        · simp only [Bool.not_eq_true] at hchk
          simp only [hchk, Bool.false_eq_true, if_false]
          exact getFlag_check_ne now e e' s he'
  · intro hflag htime hmiss
    rw [make_request_miss env jit url params e now s hmiss]
    have hfalse : (_check_rate_limit now e s).1 = false := by
      rw [check_blocked now e s hflag htime]
    simp only [hfalse, Bool.false_eq_true, if_false]
    exact ⟨by trivial, by trivial⟩
  · exact fun hflag htime => check_clears now e s hflag htime
  · intro wait
    exact ⟨getFlag_armRateLimit_self s e now wait, rlResetTime_armRateLimit s e now wait,
      fun he' => getFlag_armRateLimit_ne s e e' now wait he'⟩

/-- C3 witness: the amended theorem applied at concrete inputs — a request
for `connections` leaves the armed `stationboard` flag alone, and a
`connections` request at time 50 against an armed `connections` flag with
`reset_time = 100` is refused with no network call. -/
theorem rate_limit_cooldown_witness :
    (_make_request (fun _ => HttpResponse.ok (Json.obj [])) (fun _ => 0) "u" []
        Endpoint.connections 50 ⟨0, 0, 0, 0, true, true, false, 100, []⟩).state.getFlag
        Endpoint.stationboard = true ∧
    (_make_request (fun _ => HttpResponse.ok (Json.obj [])) (fun _ => 0) "u" []
        Endpoint.connections 50 ⟨0, 0, 0, 0, true, true, false, 100, []⟩).result
        = errObj ("Rate limit exceeded for " ++ endpointName Endpoint.connections) ∧
    (_make_request (fun _ => HttpResponse.ok (Json.obj [])) (fun _ => 0) "u" []
        Endpoint.connections 50 ⟨0, 0, 0, 0, true, true, false, 100, []⟩).calls = 0 ∧
    ((_check_rate_limit 200 Endpoint.connections
        ⟨0, 0, 0, 0, true, true, false, 100, []⟩).2).getFlag Endpoint.connections = false := by
  have h := rate_limit_cooldown_per_endpoint (fun _ => HttpResponse.ok (Json.obj []))
    (fun _ => 0) "u" [] Endpoint.connections Endpoint.stationboard 50
    ⟨0, 0, 0, 0, true, true, false, 100, []⟩
  have h2 := rate_limit_cooldown_per_endpoint (fun _ => HttpResponse.ok (Json.obj []))
    (fun _ => 0) "u" [] Endpoint.connections Endpoint.stationboard 200
    ⟨0, 0, 0, 0, true, true, false, 100, []⟩
  obtain ⟨hb1, hb2⟩ := h.2.1 (by rfl) (by decide) (by rfl)
  refine ⟨?_, hb1, hb2, h2.2.2.1 (by rfl) (by decide)⟩
  rw [h.1 (by decide)]
  rfl

/-- C4: for an endpoint with a configured daily limit `L`, the counter never
exceeds `L`: the rate check refuses — with no network call — any request
made while the counter is at (or beyond) `L` on the same day, the counter
moves only when a 200 response was obtained (by exactly one for the
requested endpoint), and a reported success really consumed a 200. -/
theorem quota_ceiling (env : Nat → HttpResponse) (jit : Nat → Int) (url : String)
    (params : List (String × Json)) (e : Endpoint) (now : Int) (s : ApiState) (L : Nat)
    (hL : MAX_REQUESTS_PER_DAY e = some L) :
    (s.getCount e ≤ L →
      (_make_request env jit url params e now s).state.getCount e ≤ L) ∧
    (s.lastReset = dateOf now → L ≤ s.getCount e →
      cacheFresh s.cache (cache_key url params) now = none →
      (_make_request env jit url params e now s).result
          = errObj ("Rate limit exceeded for " ++ endpointName e) ∧
        (_make_request env jit url params e now s).calls = 0) ∧
    (cacheFresh s.cache (cache_key url params) now = none →
      ∀ e', (_make_request env jit url params e now s).state.getCount e'
        = ((_check_rate_limit now e s).2).getCount e'
          + (if (_make_request env jit url params e now s).succeeded && (e' == e)
             then 1 else 0)) ∧
    ((_make_request env jit url params e now s).succeeded = true →
      ∃ i body, env i = HttpResponse.ok body ∧
        (_make_request env jit url params e now s).result = body) := by
  refine ⟨?_, ?_, ?_, ?_⟩
  · intro hle
    cases hcf : cacheFresh s.cache (cache_key url params) now with
    | some d => rw [make_request_hit env jit url params e now s d hcf]; exact hle
    | none =>
        rw [make_request_miss env jit url params e now s hcf]
        by_cases hchk : (_check_rate_limit now e s).1 = true
        · simp only [hchk, if_true]
          have hloop := (requestLoop_spec env jit e (cache_key url params)
            (MAX_RETRIES + 2) 0 INITIAL_BACKOFF now ((_check_rate_limit now e s).2) 0 []).1 e
          rw [hloop]
          have hlt := check_true_quota now e s L hL hchk
          split
          · omega
          · omega
        · simp only [Bool.not_eq_true] at hchk
          simp only [hchk, Bool.false_eq_true, if_false]
          calc ((_check_rate_limit now e s).2).getCount e
              = (_reset_counter_if_new_day (dateOf now) s).getCount e := getCount_check _ _ _ _
            _ ≤ s.getCount e := getCount_reset_le _ _ _
            _ ≤ L := hle
  · intro hday hcount hmiss
    rw [make_request_miss env jit url params e now s hmiss]
    simp only [check_denies_at_limit now e s L hL hday hcount, Bool.false_eq_true, if_false]
    exact ⟨by trivial, by trivial⟩
  · intro hmiss e'
    rw [make_request_miss env jit url params e now s hmiss]
    by_cases hchk : (_check_rate_limit now e s).1 = true
    · simp only [hchk, if_true]
      exact (requestLoop_spec env jit e (cache_key url params)
        (MAX_RETRIES + 2) 0 INITIAL_BACKOFF now ((_check_rate_limit now e s).2) 0 []).1 e'
    · simp only [Bool.not_eq_true] at hchk
      simp only [hchk, Bool.false_eq_true, if_false, Bool.false_and]
      simp
  · intro hsucc
    cases hcf : cacheFresh s.cache (cache_key url params) now with
    | some d =>
        rw [make_request_hit env jit url params e now s d hcf] at hsucc
        exact Bool.noConfusion hsucc
    | none =>
        rw [make_request_miss env jit url params e now s hcf] at hsucc ⊢
        by_cases hchk : (_check_rate_limit now e s).1 = true
        · simp only [hchk, if_true] at hsucc ⊢
          exact (requestLoop_spec env jit e (cache_key url params)
            (MAX_RETRIES + 2) 0 INITIAL_BACKOFF now ((_check_rate_limit now e s).2) 0 []).2.2 hsucc
        · simp only [Bool.not_eq_true] at hchk
          simp only [hchk, Bool.false_eq_true, if_false] at hsucc

/-- C4 witness: with `connections` already at its limit of 1000 on the
current day, the 1001st request is refused with no network call; the quota
invariant holds at the same input. -/
theorem quota_ceiling_witness :
    (_make_request (fun _ => HttpResponse.ok (Json.obj [])) (fun _ => 1) "url" []
        Endpoint.connections 50 ⟨1000, 0, 0, 0, false, false, false, 0, []⟩).result
        = errObj ("Rate limit exceeded for " ++ endpointName Endpoint.connections) ∧
    (_make_request (fun _ => HttpResponse.ok (Json.obj [])) (fun _ => 1) "url" []
        Endpoint.connections 50 ⟨1000, 0, 0, 0, false, false, false, 0, []⟩).calls = 0 ∧
    (_make_request (fun _ => HttpResponse.ok (Json.obj [])) (fun _ => 1) "url" []
        Endpoint.connections 50 ⟨1000, 0, 0, 0, false, false, false, 0, []⟩).state.getCount
        Endpoint.connections ≤ 1000 := by
  have h := quota_ceiling (fun _ => HttpResponse.ok (Json.obj [])) (fun _ => 1) "url" []
    Endpoint.connections 50 ⟨1000, 0, 0, 0, false, false, false, 0, []⟩ 1000 rfl
  obtain ⟨hr, hc⟩ := h.2.1 (by decide) (by decide) (by rfl)
  exact ⟨hr, hc, h.1 (by decide)⟩

/-- C5: with canonicalized keys, a first networked 200 stores the payload;
any second request with the same URL and a permutation of the same
parameters, within `CACHE_EXPIRY` of the store, returns the identical
payload immediately: no network call, no rate-limit check, and the module
state (counters, flags, cache) is completely unchanged. -/
theorem cache_idempotence (env env' : Nat → HttpResponse) (jit jit' : Nat → Int)
    (url : String) (p₁ p₂ : List (String × Json)) (e : Endpoint) (now now2 : Int)
    (s : ApiState) (body : Json)
    (hperm : p₁.Perm p₂) (hnd : (p₁.map Prod.fst).Nodup)
    (hmiss : cacheFresh s.cache (cache_key url p₁) now = none)
    (hchk : (_check_rate_limit now e s).1 = true)
    (henv : env 0 = HttpResponse.ok body)
    (httl : now2 - (now + jit 0) < CACHE_EXPIRY) :
    (_make_request env jit url p₁ e now s).result = body ∧
    (_make_request env jit url p₁ e now s).calls = 1 ∧
    (_make_request env' jit' url p₂ e now2 (_make_request env jit url p₁ e now s).state).result
      = body ∧
    (_make_request env' jit' url p₂ e now2 (_make_request env jit url p₁ e now s).state).calls
      = 0 ∧
    (_make_request env' jit' url p₂ e now2 (_make_request env jit url p₁ e now s).state).state
      = (_make_request env jit url p₁ e now s).state := by
  have hrun1 : _make_request env jit url p₁ e now s =
      ⟨body,
        { ((_check_rate_limit now e s).2.incCount e) with
          cache := cacheSet ((_check_rate_limit now e s).2.incCount e).cache (cache_key url p₁)
            body (now + jit 0) },
        1, [], true, now + jit 0⟩ := by
    rw [make_request_miss env jit url p₁ e now s hmiss]
    simp only [hchk, if_true]
    simp [requestLoop, MAX_RETRIES, henv]
  have hkey : cache_key url p₂ = cache_key url p₁ := (cache_key_perm url p₁ p₂ hperm hnd).symm
  have hfresh2 : cacheFresh (_make_request env jit url p₁ e now s).state.cache
      (cache_key url p₂) now2 = some body := by
    rw [hrun1, hkey]
    unfold cacheFresh
    rw [cacheGet_cacheSet_self]
    simp only [if_pos httl]
  have hrun2 : _make_request env' jit' url p₂ e now2
      (_make_request env jit url p₁ e now s).state =
      ⟨body, (_make_request env jit url p₁ e now s).state, 0, [], false, now2⟩ :=
    make_request_hit env' jit' url p₂ e now2 _ body hfresh2
  refine ⟨?_, ?_, ?_, ?_, ?_⟩
  · rw [hrun1]
  · rw [hrun1]
  · rw [hrun2]
  · rw [hrun2]
  · rw [hrun2]

/-- C5 witness: the theorem at a concrete state with the two key orders
`[b, a]` and `[a, b]`. -/
theorem cache_idempotence_witness :
    (_make_request (fun _ => HttpResponse.ok (Json.obj [("x", Json.int 1)])) (fun _ => 1)
        "u" [("b", Json.str "2"), ("a", Json.str "1")] Endpoint.connections 50
        ⟨0, 0, 0, 0, false, false, false, 0, []⟩).calls = 1 ∧
    (_make_request (fun _ => HttpResponse.fail "down") (fun _ => 0) "u"
        [("a", Json.str "1"), ("b", Json.str "2")] Endpoint.connections 3000
        (_make_request (fun _ => HttpResponse.ok (Json.obj [("x", Json.int 1)])) (fun _ => 1)
          "u" [("b", Json.str "2"), ("a", Json.str "1")] Endpoint.connections 50
          ⟨0, 0, 0, 0, false, false, false, 0, []⟩).state).result
      = Json.obj [("x", Json.int 1)] ∧
    (_make_request (fun _ => HttpResponse.fail "down") (fun _ => 0) "u"
        [("a", Json.str "1"), ("b", Json.str "2")] Endpoint.connections 3000
        (_make_request (fun _ => HttpResponse.ok (Json.obj [("x", Json.int 1)])) (fun _ => 1)
          "u" [("b", Json.str "2"), ("a", Json.str "1")] Endpoint.connections 50
          ⟨0, 0, 0, 0, false, false, false, 0, []⟩).state).calls = 0 := by
  have h := cache_idempotence (fun _ => HttpResponse.ok (Json.obj [("x", Json.int 1)]))
    (fun _ => HttpResponse.fail "down") (fun _ => 1) (fun _ => 0) "u"
    [("b", Json.str "2"), ("a", Json.str "1")] [("a", Json.str "1"), ("b", Json.str "2")]
    Endpoint.connections 50 3000 ⟨0, 0, 0, 0, false, false, false, 0, []⟩
    (Json.obj [("x", Json.int 1)]) (List.Perm.swap _ _ _) (by simp) rfl rfl rfl (by decide)
  exact ⟨h.2.1, h.2.2.1, h.2.2.2.1⟩

/-- C6: when every attempt receives a 429 without a `Retry-After` header,
the backoff sleeps are exactly 5s, 10s, 20s (doubling from
`INITIAL_BACKOFF`, never reaching `MAX_BACKOFF` within `MAX_RETRIES`
retries), exactly `1 + MAX_RETRIES` network calls are made, and the call
returns a rate-limited error dict instead of raising. -/
theorem backoff_doubling (env : Nat → HttpResponse) (jit : Nat → Int) (url : String)
    (params : List (String × Json)) (e : Endpoint) (now : Int) (s : ApiState)
    (henv : ∀ i, env i = HttpResponse.tooMany none)
    (hmiss : cacheFresh s.cache (cache_key url params) now = none)
    (hchk : (_check_rate_limit now e s).1 = true) :
    (_make_request env jit url params e now s).waits = [5, 10, 20] ∧
    (_make_request env jit url params e now s).calls = 1 + MAX_RETRIES ∧
    (_make_request env jit url params e now s).result
      = errObj ("Rate limit exceeded after " ++ toString MAX_RETRIES ++ " retries") ∧
    (_make_request env jit url params e now s).succeeded = false := by
  rw [make_request_miss env jit url params e now s hmiss]
  simp only [hchk, if_true]
  refine ⟨?_, ?_, ?_, ?_⟩ <;>
    simp [requestLoop, henv, retryWait, MAX_RETRIES, INITIAL_BACKOFF, MAX_BACKOFF]

/-- C6 witness: the theorem at a concrete fresh state. -/
theorem backoff_doubling_witness :
    (_make_request (fun _ => HttpResponse.tooMany none) (fun _ => 1) "u" []
        Endpoint.connections 50 ⟨0, 0, 0, 0, false, false, false, 0, []⟩).waits
      = [5, 10, 20] ∧
    (_make_request (fun _ => HttpResponse.tooMany none) (fun _ => 1) "u" []
        Endpoint.connections 50 ⟨0, 0, 0, 0, false, false, false, 0, []⟩).calls
      = 1 + MAX_RETRIES ∧
    (_make_request (fun _ => HttpResponse.tooMany none) (fun _ => 1) "u" []
        Endpoint.connections 50 ⟨0, 0, 0, 0, false, false, false, 0, []⟩).result
      = errObj ("Rate limit exceeded after " ++ toString MAX_RETRIES ++ " retries") := by
  have h := backoff_doubling (fun _ => HttpResponse.tooMany none) (fun _ => 1) "u" []
    Endpoint.connections 50 ⟨0, 0, 0, 0, false, false, false, 0, []⟩
    (fun _ => rfl) rfl rfl
  exact ⟨h.1, h.2.1, h.2.2.1⟩

/-- C10: station-board collection does its HTTP work through
`get_station_board_direct`, which passes the module state (request
counters, cooldown flags, cache) through untouched, makes exactly one
network call, never retries, and replaces any error outcome (exception or
non-2xx status) by a payload with an empty `stationboard` list; the
collection loop therefore leaves the state unchanged and makes exactly one
call per sampled slot. -/
theorem station_board_direct_frame :
    (∀ resp s, (get_station_board_direct resp s).2.1 = s ∧
      (get_station_board_direct resp s).2.2 = 1) ∧
    (∀ body s, get_station_board_direct (HttpResponse.ok body) s = (body, s, 1)) ∧
    (∀ ra s, get_station_board_direct (HttpResponse.tooMany ra) s
      = (Json.obj [("stationboard", Json.arr [])], s, 1)) ∧
    (∀ msg s, get_station_board_direct (HttpResponse.fail msg) s
      = (Json.obj [("stationboard", Json.arr [])], s, 1)) ∧
    (∀ off nd nt sid slots s,
      (collect_station_entries off nd nt sid slots s).2.1 = s ∧
      (collect_station_entries off nd nt sid slots s).2.2 = slots.length) := by
  have hstep : ∀ resp (s : ApiState), (get_station_board_direct resp s).2.1 = s ∧
      (get_station_board_direct resp s).2.2 = 1 := by
    intro resp s
    cases resp <;> exact ⟨rfl, rfl⟩
  refine ⟨hstep, fun body s => rfl, fun ra s => rfl, fun msg s => rfl, ?_⟩
  intro off nd nt sid slots s
  have aux : ∀ (slots : List (String × String × HttpResponse))
      (acc : List Row × ApiState × Nat),
      (slots.foldl (fun acc slot =>
        let (dateStr, timeSlot, resp) := slot
        let (entries, st, calls) := acc
        let (api_response, st', c) := get_station_board_direct resp st
        match extract_data_from_stationboard off nd nt api_response sid with
        | .ok rows =>
            let tagged := rows.map (fun r =>
              setField (setField (setField r "board_type" (.str "arrival"))
                "request_time" (.str timeSlot)) "request_date" (.str dateStr))
            (entries ++ tagged, st', calls + c)
        | .error _ => (entries, st', calls + c)) acc).2
        = (acc.2.1, acc.2.2 + slots.length) := by
    intro slots
    induction slots with
    | nil => intro acc; simp [List.foldl]
    | cons slot rest ih =>
        intro acc
        obtain ⟨dateStr, timeSlot, resp⟩ := slot
        obtain ⟨entries, st, calls⟩ := acc
        rw [List.foldl_cons, ih]
        cases resp <;>
          · simp only [get_station_board_direct]
            split <;> (simp; try omega)
  constructor
  · show ((collect_station_entries off nd nt sid slots s).2).1 = s
    unfold collect_station_entries
    rw [aux]
  · show ((collect_station_entries off nd nt sid slots s).2).2 = slots.length
    unfold collect_station_entries
    rw [aux]
    simp

/-! ## Claim theorems: the reconciliation pipeline on concrete records

The concrete inputs below are fed through the actual normalizers
(`process_connection`, `process_stationboard_entry`) so that the records
carry exactly the schema this repository produces. -/

/-- A raw connection item: Zürich HB → Luzern, single leg IC 1, scheduled
departure 08:00 with an API departure delay of 3 minutes. -/
def c1RawConn : Json := .obj [
  ("from", .obj [
    ("station", .obj [("id", .str "8503000"), ("name", .str "Zurich HB")]),
    ("departure", .str "2025-03-01T08:00:00"),
    ("departureTimestamp", .null),
    ("delay", .int 3),
    ("platform", .str "31")]),
  ("to", .obj [
    ("station", .obj [("id", .str "8505000"), ("name", .str "Luzern")]),
    ("arrival", .str "2025-03-01T09:00:00"),
    ("arrivalTimestamp", .null),
    ("delay", .int 4),
    ("platform", .str "7")]),
  ("duration", .str "00d01:00:00"),
  ("sections", .arr [ .obj [
     ("journey", .obj [("category", .str "IC"), ("number", .str "1"),
       ("operator", .str "SBB")]),
     ("departure", .obj [
        ("station", .obj [("id", .str "8503000"), ("name", .str "Zurich HB")]),
        ("departure", .str "2025-03-01T08:00:00"),
        ("departureTimestamp", .null),
        ("delay", .int 3),
        ("platform", .str "31")]),
     ("arrival", .obj [
        ("station", .obj [("id", .str "8505000"), ("name", .str "Luzern")]),
        ("arrival", .str "2025-03-01T09:00:00"),
        ("arrivalTimestamp", .null),
        ("delay", .int 4),
        ("platform", .str "7")])]])]

/-- The same train on the Zürich HB station board with an observed delay of
5 minutes on platform 31. -/
def c1RawBoard : Json := .obj [
  ("category", .str "IC"),
  ("number", .str "1"),
  ("operator", .str "SBB"),
  ("to", .str "Luzern"),
  ("stop", .obj [
    ("station", .obj [("id", .str "8503000"), ("name", .str "Zurich HB")]),
    ("departure", .str "2025-03-01T08:00:00"),
    ("departureTimestamp", .null),
    ("arrival", .null),
    ("arrivalTimestamp", .null),
    ("delay", .int 5),
    ("platform", .str "31"),
    ("prognosis", .obj [("departure", .null), ("arrival", .null), ("platform", .null)])]),
  ("passList", .arr [])]

def c1ConnRow : Row :=
  match process_connection 3600 "2025-03-01" "10:00:00" c1RawConn with
  | .ok r => r
  | .error _ => []

/-- The station-board record as stored by the collector, tagged as a
departure row the way the matcher's filter expects (the repository's own
collector only ever tags `arrival`; the claim's premise is a departure
row). -/
def c1BoardRow : Row :=
  match process_stationboard_entry 3600 "2025-03-01" "08:05:00" c1RawBoard "8503000" with
  | .ok r => setField r "board_type" (.str "departure")
  | .error _ => []

def c1Enhanced : Except String Row :=
  match_connection_with_station_board c1ConnRow [c1BoardRow] []

/-- C1 (code bug): the board row carries its observed delay of 5 under the
column `delay` — the schema `process_stationboard_entry` produces — and the
matcher does find it (its platform is copied), yet `sb_departure_delay` is
set to `None` because the matcher reads the non-existent column
`departure_delay`, and consequently no `departure_delay_diff` is computed.
The claim's expected output (`sb_departure_delay = 5`,
`departure_delay_diff = 2`) is unreachable. -/
theorem sb_departure_delay_not_copied :
    rowGet c1BoardRow "delay" = some (Json.int 5) ∧
    rowGet c1BoardRow "departure_delay" = none ∧
    rowGet c1BoardRow "board_type" = some (Json.str "departure") ∧
    rowGet c1BoardRow "train_category" = some (Json.str "IC") ∧
    rowGet c1BoardRow "train_number" = some (Json.str "1") ∧
    rowGet c1ConnRow "section_1_category" = some (Json.str "IC") ∧
    rowGet c1ConnRow "section_1_number" = some (Json.str "1") ∧
    rowGet c1ConnRow "departure_delay" = some (Json.int 3) ∧
    c1Enhanced.map (fun e => (rowGet e "sb_departure_delay", rowGet e "departure_delay_diff",
      rowGet e "sb_departure_platform"))
      = .ok (some Json.null, none, some (Json.str "31")) :=
  ⟨rfl, rfl, rfl, rfl, rfl, rfl, rfl, rfl, rfl⟩

/-- A raw connection departing 10:02 (API delay 3), for the tie-break
claim. -/
def c2RawConn : Json := .obj [
  ("from", .obj [
    ("station", .obj [("id", .str "8503000"), ("name", .str "Zurich HB")]),
    ("departure", .str "2025-03-01T10:02:00"),
    ("departureTimestamp", .null),
    ("delay", .int 3),
    ("platform", .str "31")]),
  ("to", .obj [
    ("station", .obj [("id", .str "8505000"), ("name", .str "Luzern")]),
    ("arrival", .str "2025-03-01T11:00:00"),
    ("arrivalTimestamp", .null),
    ("delay", .int 4),
    ("platform", .str "7")]),
  ("duration", .str "00d00:58:00"),
  ("sections", .arr [ .obj [
     ("journey", .obj [("category", .str "IC"), ("number", .str "1"),
       ("operator", .str "SBB")]),
     ("departure", .obj [
        ("station", .obj [("id", .str "8503000")]),
        ("departure", .str "2025-03-01T10:02:00"),
        ("departureTimestamp", .null),
        ("delay", .int 3)]),
     ("arrival", .obj [
        ("station", .obj [("id", .str "8505000")]),
        ("arrival", .str "2025-03-01T11:00:00"),
        ("arrivalTimestamp", .null),
        ("delay", .int 4)])]])]

def c2ConnRow : Row :=
  match process_connection 3600 "2025-03-01" "12:00:00" c2RawConn with
  | .ok r => r
  | .error _ => []

/-- A board entry for train IC 1 at Zürich HB with the given scheduled
departure time and platform. -/
def c2RawBoard (dep plat : String) : Json := .obj [
  ("category", .str "IC"),
  ("number", .str "1"),
  ("operator", .str "SBB"),
  ("to", .str "Luzern"),
  ("stop", .obj [
    ("station", .obj [("id", .str "8503000"), ("name", .str "Zurich HB")]),
    ("departure", .str dep),
    ("departureTimestamp", .null),
    ("arrival", .null),
    ("arrivalTimestamp", .null),
    ("delay", .int 2),
    ("platform", .str plat),
    ("prognosis", .obj [("departure", .null), ("arrival", .null), ("platform", .null)])]),
  ("passList", .arr [])]

def c2BoardRow (dep plat : String) : Row :=
  match process_stationboard_entry 3600 "2025-03-01" "10:30:00" (c2RawBoard dep plat)
      "8503000" with
  | .ok r => setField r "board_type" (.str "departure")
  | .error _ => []

def c2Enhanced : Except String Row :=
  match_connection_with_station_board c2ConnRow
    [c2BoardRow "2025-03-01T10:05:00" "5", c2BoardRow "2025-03-01T10:00:00" "3"] []

/-- C2 (code bug): the connection record carries its scheduled departure
10:02 under `departure_time` (the schema `process_connection` produces) and
never a `departure_datetime` key, and the board rows carry their scheduled
times under `departure_time`, never `scheduled_departure`; so the matcher's
closest-time branch is unreachable and the first candidate is taken: with
candidates scheduled 10:05 (platform 5, listed first) and 10:00 (platform
3), the enriched record shows platform 5 — the 10:05 entry — although the
10:00 entry is closer to 10:02. -/
theorem tie_break_first_candidate :
    rowGet c2ConnRow "departure_time" = some (Json.str "10:02:00") ∧
    hasKey c2ConnRow "departure_datetime" = false ∧
    rowGet (c2BoardRow "2025-03-01T10:05:00" "5") "departure_time"
      = some (Json.str "10:05:00") ∧
    rowGet (c2BoardRow "2025-03-01T10:00:00" "3") "departure_time"
      = some (Json.str "10:00:00") ∧
    rowGet (c2BoardRow "2025-03-01T10:05:00" "5") "scheduled_departure" = none ∧
    c2Enhanced.map (fun e => rowGet e "sb_departure_platform")
      = .ok (some (Json.str "5")) :=
  ⟨rfl, rfl, rfl, rfl, rfl, rfl⟩

/-- A station-board arrival entry whose stop has no direct delay, scheduled
arrival 12:00:00 and prognosis arrival 12:01:30 (90 seconds late). -/
def c7RawBoard : Json := .obj [
  ("category", .str "IR"),
  ("number", .str "75"),
  ("operator", .str "SBB"),
  ("to", .str "Luzern"),
  ("stop", .obj [
    ("station", .obj [("id", .str "8505000"), ("name", .str "Luzern")]),
    ("departure", .null),
    ("departureTimestamp", .null),
    ("arrival", .str "2025-03-01T12:00:00"),
    ("arrivalTimestamp", .null),
    ("delay", .null),
    ("platform", .str "4"),
    ("prognosis", .obj [("departure", .null),
      ("arrival", .str "2025-03-01T12:01:30"), ("platform", .null)])]),
  ("passList", .arr [])]

/-- C7 (counterexample): for a station-board record whose delay is derived
from prognosis vs. scheduled time, a 90-second lateness yields a stored
delay of 1 minute — `int(1.5)` truncation — whereas the claimed formula
`round(90 / 60)` gives 2. -/
theorem station_board_delay_truncates :
    (process_stationboard_entry 3600 "2025-03-01" "12:05:00" c7RawBoard "8505000").map
      (fun r => rowGet r "delay") = .ok (some (Json.int 1)) ∧
    sbDeriveDelay (Json.str "2025-03-01T12:00:00") (Json.str "2025-03-01T12:01:30")
      = some 1 ∧
    pyRound60 90 = 2 :=
  ⟨rfl, rfl, rfl⟩

/-- C7 (amended): when a delay is derived from timestamps, the
connection-side derivation (`calculate_delay_from_timestamp`) rounds
half-to-even: it equals `pyRound60` of the seconds between the
`fromtimestamp` wall clock (`ts + off`) and the schedule's wall clock; the
station-board prognosis derivation instead truncates toward zero
(`pyTrunc60`); and in both, a missing or unparseable operand yields `None`,
never 0. -/
theorem derived_delay_formula (off : Int) :
    (∀ s ts dt, (Json.str s).truthy = true →
      fromisoformat (pyReplaceZ s) = some dt →
      calculate_delay_from_timestamp off (Json.str s) (Json.int ts)
        = some (pyRound60 ((ts + off) - dt.wallSecs))) ∧
    (∀ v, calculate_delay_from_timestamp off v Json.null = none) ∧
    (∀ v, calculate_delay_from_timestamp off Json.null v = none) ∧
    (∀ s ts, fromisoformat (pyReplaceZ s) = none →
      calculate_delay_from_timestamp off (Json.str s) (Json.int ts) = none) ∧
    (∀ a b da db, fromisoformat (pyReplaceZ a) = some da →
      fromisoformat (pyReplaceZ b) = some db → da.tzMin = none → db.tzMin = none →
      sbDeriveDelay (Json.str a) (Json.str b)
        = some (pyTrunc60 (db.wallSecs - da.wallSecs))) ∧
    (∀ v, sbDeriveDelay v Json.null = none) ∧
    (∀ v, sbDeriveDelay Json.null v = none) := by
  refine ⟨?_, ?_, ?_, ?_, ?_, ?_, ?_⟩
  · intro s ts dt htr hparse
    unfold calculate_delay_from_timestamp
    rw [htr]
    simp only [Bool.not_true, Bool.false_or,
      show ((Json.int ts) == Json.null) = false from rfl, Bool.false_eq_true, if_false,
      hparse]
  · intro v
    unfold calculate_delay_from_timestamp
    simp only [show ((Json.null : Json) == Json.null) = true from rfl, Bool.or_true, if_true]
  · intro v
    unfold calculate_delay_from_timestamp
    simp [Json.truthy]
  · intro s ts hparse
    unfold calculate_delay_from_timestamp
    by_cases htr : (Json.str s).truthy = true
    · rw [htr]
      simp only [Bool.not_true, Bool.false_or,
        show ((Json.int ts) == Json.null) = false from rfl, Bool.false_eq_true, if_false,
        hparse]
    · simp only [Bool.not_eq_true] at htr
      rw [htr]
      simp
  · intro a b da db hpa hpb hta htb
    simp only [sbDeriveDelay, hpa, hpb, hta, htb]
  · intro v
    cases v <;> rfl
  · intro v
    cases v <;> rfl

/-- C7 witness: the amended theorem at parseable and missing inputs. -/
theorem derived_delay_formula_witness :
    calculate_delay_from_timestamp 3600 (Json.str "2025-03-01T12:00:00") (Json.int 1000000)
      = some (pyRound60 ((1000000 + 3600)
          - (PyDateTime.mk 2025 3 1 43200 none).wallSecs)) ∧
    calculate_delay_from_timestamp 3600 Json.null (Json.int 5) = none ∧
    calculate_delay_from_timestamp 3600 (Json.str "garbage") (Json.int 5) = none ∧
    sbDeriveDelay (Json.str "2025-03-01T12:00:00") (Json.str "2025-03-01T12:01:30")
      = some (pyTrunc60 ((PyDateTime.mk 2025 3 1 43290 none).wallSecs
          - (PyDateTime.mk 2025 3 1 43200 none).wallSecs)) ∧
    sbDeriveDelay (Json.str "2025-03-01T12:00:00") Json.null = none :=
  ⟨(derived_delay_formula 3600).1 "2025-03-01T12:00:00" 1000000 _ rfl rfl,
   (derived_delay_formula 3600).2.2.1 (Json.int 5),
   (derived_delay_formula 3600).2.2.2.1 "garbage" 5 rfl,
   (derived_delay_formula 3600).2.2.2.2.1 "2025-03-01T12:00:00" "2025-03-01T12:01:30"
     _ _ rfl rfl rfl rfl,
   (derived_delay_formula 3600).2.2.2.2.2.1 (Json.str "2025-03-01T12:00:00")⟩

/-! ## Claim C8: the enrichment arithmetic of the matcher -/

theorem except_bind_ok {α β : Type} (a : α) (f : α → Except String β) :
    (Except.ok a >>= f) = f a := rfl

theorem except_bind_error {α β : Type} (msg : String) (f : α → Except String β) :
    ((Except.error msg : Except String α) >>= f) = Except.error msg := rfl

/-- The spec's reading of a nullable integer cell: null / absent count as
zero. -/
def numOrZero : Json → Int
  | .int n => n
  | _ => 0

theorem copyMatch_frame (delayCol sbDelayKey sbPlatKey : String) (m : Option Row)
    (r : Row) (k : String) (h1 : k ≠ sbDelayKey) (h2 : k ≠ sbPlatKey) :
    rowGet (copyMatch delayCol sbDelayKey sbPlatKey m r) k = rowGet r k := by
  cases m with
  | none => rfl
  | some mr =>
      simp only [copyMatch]
      rw [rowGet_setField_ne _ _ _ _ h2, rowGet_setField_ne _ _ _ _ h1]

theorem notna_null : notna Json.null = false := rfl

theorem notna_int (n : Int) : notna (Json.int n) = true := rfl

theorem notna_str (s : String) : notna (Json.str s) = true := rfl

theorem notna_obj (fs : List (String × Json)) : notna (Json.obj fs) = true := rfl

theorem notna_arr (xs : List Json) : notna (Json.arr xs) = true := rfl

theorem pySub_ok_inv (a b c : Json) (h : pySub a b = .ok c) :
    ∃ m n, a = Json.int m ∧ b = Json.int n ∧ c = Json.int (m - n) := by
  cases a <;> cases b <;>
    first
      | · refine ⟨_, _, rfl, rfl, ?_⟩
          injection h with h1
          exact h1.symm
      | · exfalso
          simp only [pySub] at h
          exact Except.noConfusion h

/-- Auxiliary: inverting the null-coalescing of the journey computation. -/
theorem coalesce_int (r : Row) (key : String) (n : Int)
    (h : (if notna (rowGetD r key (.int 0)) then rowGetD r key (.int 0) else Json.int 0)
      = Json.int n) :
    numOrZero (rowGetD r key) = n := by
  cases hk : rowGet r key with
  | none =>
      have h0 : (Json.int 0) = Json.int n := by
        simpa [rowGetD, hk, notna_int] using h
      injection h0 with h1
      simp [rowGetD, hk, numOrZero]
      omega
  | some v =>
      cases v with
      | null =>
          have h0 : (Json.int 0) = Json.int n := by
            simpa [rowGetD, hk, notna_null] using h
          injection h0 with h1
          simp [rowGetD, hk, numOrZero]
          omega
      | int m =>
          have h0 : (Json.int m) = Json.int n := by
            simpa [rowGetD, hk, notna_int] using h
          injection h0 with h1
          simp [rowGetD, hk, numOrZero]
          omega
      | str s =>
          have h0 : (Json.str s) = Json.int n := by
            simpa [rowGetD, hk, notna_str] using h
          exact Json.noConfusion h0
      | obj fs =>
          have h0 : (Json.obj fs) = Json.int n := by
            simpa [rowGetD, hk, notna_obj] using h
          exact Json.noConfusion h0
      | arr xs =>
          have h0 : (Json.arr xs) = Json.int n := by
            simpa [rowGetD, hk, notna_arr] using h
          exact Json.noConfusion h0

theorem addJourney_spec (r r' : Row) (hok : addJourney r = .ok r') :
    (∀ k, k ≠ "journey_added_delay" → rowGet r' k = rowGet r k) ∧
    rowGet r' "journey_added_delay"
      = some (Json.int (numOrZero (rowGetD r "arrival_delay")
          - numOrZero (rowGetD r "departure_delay"))) := by
  simp only [addJourney] at hok
  cases hps : pySub
      (if notna (rowGetD r "arrival_delay" (.int 0)) then rowGetD r "arrival_delay" (.int 0)
       else Json.int 0)
      (if notna (rowGetD r "departure_delay" (.int 0)) then rowGetD r "departure_delay" (.int 0)
       else Json.int 0) with
  | error msg =>
      rw [hps] at hok
      simp [except_bind_error] at hok
  | ok j =>
      rw [hps] at hok
      simp only [except_bind_ok] at hok
      have hr' : setField r "journey_added_delay" j = r' := by
        injection hok
      subst hr'
      obtain ⟨aI, dI, ha, hd, hj⟩ := pySub_ok_inv _ _ _ hps
      refine ⟨fun k hk => rowGet_setField_ne r k _ j hk, ?_⟩
      rw [rowGet_setField_self, hj, coalesce_int r "arrival_delay" aI ha,
        coalesce_int r "departure_delay" dI hd]

theorem addDelayDiff_spec (ck sk dk : String) (r r' : Row)
    (hne1 : dk ≠ ck) (hne2 : dk ≠ sk)
    (hfresh : hasKey r dk = false)
    (hok : addDelayDiff ck sk dk r = .ok r') :
    (∀ k, k ≠ dk → rowGet r' k = rowGet r k) ∧
    ((rowGet r' dk).isSome
      = (hasKey r ck && hasKey r sk && notna (rowGetD r ck) && notna (rowGetD r sk))) ∧
    (∀ d, rowGet r' dk = some d → pySub (rowGetD r sk) (rowGetD r ck) = .ok d) := by
  unfold addDelayDiff at hok
  by_cases h1 : (hasKey r ck && hasKey r sk) = true
  · rw [if_pos h1] at hok
    by_cases h2 : (notna (rowGetD r ck) && notna (rowGetD r sk)) = true
    · rw [if_pos h2] at hok
      cases hps : pySub (rowGetD r sk) (rowGetD r ck) with
      | error msg => rw [hps] at hok; simp [except_bind_error] at hok
      | ok d =>
          rw [hps] at hok
          simp only [except_bind_ok] at hok
          have hr' : setField r dk d = r' := by injection hok
          subst hr'
          obtain ⟨ha, hb⟩ := (Bool.and_eq_true _ _).mp h1
          obtain ⟨hc, hd⟩ := (Bool.and_eq_true _ _).mp h2
          refine ⟨fun k hk => rowGet_setField_ne r k dk d hk, ?_, ?_⟩
          · rw [rowGet_setField_self]
            simp [ha, hb, hc, hd]
          · intro d' hd'
            rw [rowGet_setField_self] at hd'
            injection hd' with hd''
            subst hd''
            rfl
    · rw [if_neg h2] at hok
      have hr' : r = r' := by injection hok
      subst hr'
      have hnone : rowGet r dk = none := by
        cases hrg : rowGet r dk with
        | none => rfl
        | some v => exfalso; simp [hasKey, hrg] at hfresh
      refine ⟨fun k _ => rfl, ?_, ?_⟩
      · rw [hnone]
        simp only [Bool.not_eq_true] at h2
        simp only [Option.isSome_none]
        cases hx : notna (rowGetD r ck) <;> cases hy : notna (rowGetD r sk) <;>
          simp_all
      · intro d hd
        rw [hnone] at hd
        exact Option.noConfusion hd
  · rw [if_neg h1] at hok
    have hr' : r = r' := by injection hok
    subst hr'
    have hnone : rowGet r dk = none := by
      cases hrg : rowGet r dk with
      | none => rfl
      | some v => exfalso; simp [hasKey, hrg] at hfresh
    refine ⟨fun k _ => rfl, ?_, ?_⟩
    · rw [hnone]
      simp only [Bool.not_eq_true] at h1
      simp only [Option.isSome_none]
      cases hx : hasKey r ck <;> cases hy : hasKey r sk <;> simp_all
    · intro d hd
      rw [hnone] at hd
      exact Option.noConfusion hd

/-- C8: for every enriched record the matcher outputs (from an input record
that does not already carry the two diff columns), `journey_added_delay` is
present and equals `arrival_delay - departure_delay` with a null or absent
delay treated as 0, while `departure_delay_diff` / `arrival_delay_diff`
exist exactly when both of their operands are present and non-null, and
then hold the station-board delay minus the connection delay. -/
theorem journey_added_delay_semantics (conn : Row) (fromDf toDf : List Row) (e : Row)
    (hf1 : hasKey conn "departure_delay_diff" = false)
    (hf2 : hasKey conn "arrival_delay_diff" = false)
    (hok : match_connection_with_station_board conn fromDf toDf = .ok e) :
    rowGet e "journey_added_delay"
      = some (Json.int (numOrZero (rowGetD e "arrival_delay")
          - numOrZero (rowGetD e "departure_delay"))) ∧
    ((rowGet e "departure_delay_diff").isSome
      = (hasKey e "departure_delay" && hasKey e "sb_departure_delay"
         && notna (rowGetD e "departure_delay")
         && notna (rowGetD e "sb_departure_delay"))) ∧
    (∀ d, rowGet e "departure_delay_diff" = some d →
      pySub (rowGetD e "sb_departure_delay") (rowGetD e "departure_delay") = .ok d) ∧
    ((rowGet e "arrival_delay_diff").isSome
      = (hasKey e "arrival_delay" && hasKey e "sb_arrival_delay"
         && notna (rowGetD e "arrival_delay")
         && notna (rowGetD e "sb_arrival_delay"))) ∧
    (∀ d, rowGet e "arrival_delay_diff" = some d →
      pySub (rowGetD e "sb_arrival_delay") (rowGetD e "arrival_delay") = .ok d) := by
  simp only [match_connection_with_station_board] at hok
  cases hmd : findBoardMatch conn fromDf "departure" (rowGetD conn "section_1_category")
      (rowGetD conn "section_1_number") "departure_datetime" "scheduled_departure" with
  | error msg => rw [hmd] at hok; simp [except_bind_error] at hok
  | ok md =>
  rw [hmd, except_bind_ok] at hok
  cases hma : findBoardMatch conn toDf "arrival"
      (rowGetD conn ("section_" ++ toString (lastSectionIdx conn) ++ "_category"))
      (rowGetD conn ("section_" ++ toString (lastSectionIdx conn) ++ "_number"))
      "arrival_datetime" "scheduled_arrival" with
  | error msg => rw [hma] at hok; simp [except_bind_error] at hok
  | ok ma =>
  rw [hma, except_bind_ok] at hok
  set E2 := copyMatch "arrival_delay" "sb_arrival_delay" "sb_arrival_platform" ma
    (copyMatch "departure_delay" "sb_departure_delay" "sb_departure_platform" md conn)
    with hE2
  cases hd1 : addDelayDiff "departure_delay" "sb_departure_delay" "departure_delay_diff" E2 with
  | error msg => rw [hd1] at hok; simp [except_bind_error] at hok
  | ok e3 =>
  rw [hd1, except_bind_ok] at hok
  cases hd2 : addDelayDiff "arrival_delay" "sb_arrival_delay" "arrival_delay_diff" e3 with
  | error msg => rw [hd2] at hok; simp [except_bind_error] at hok
  | ok e4 =>
  rw [hd2, except_bind_ok] at hok
  obtain ⟨jframe, jval⟩ := addJourney_spec e4 e hok
  have hE2get : ∀ k, k ≠ "sb_arrival_delay" → k ≠ "sb_arrival_platform" →
      k ≠ "sb_departure_delay" → k ≠ "sb_departure_platform" →
      rowGet E2 k = rowGet conn k := by
    intro k h1 h2 h3 h4
    rw [hE2, copyMatch_frame _ _ _ _ _ _ h1 h2, copyMatch_frame _ _ _ _ _ _ h3 h4]
  have hfr1 : hasKey E2 "departure_delay_diff" = false := by
    unfold hasKey at hf1 ⊢
    rw [hE2get _ (by decide) (by decide) (by decide) (by decide)]
    exact hf1
  obtain ⟨f1, iff1, val1⟩ := addDelayDiff_spec _ _ _ E2 e3 (by decide) (by decide) hfr1 hd1
  have hfr2 : hasKey e3 "arrival_delay_diff" = false := by
    unfold hasKey at hf2 ⊢
    rw [f1 _ (by decide), hE2get _ (by decide) (by decide) (by decide) (by decide)]
    exact hf2
  obtain ⟨f2, iff2, val2⟩ := addDelayDiff_spec _ _ _ e3 e4 (by decide) (by decide) hfr2 hd2
  have he_e4 : ∀ k, k ≠ "journey_added_delay" → rowGet e k = rowGet e4 k := jframe
  have he_e3 : ∀ k, k ≠ "journey_added_delay" → k ≠ "arrival_delay_diff" →
      rowGet e k = rowGet e3 k := fun k h1 h2 => (jframe k h1).trans (f2 k h2)
  have he_E2 : ∀ k, k ≠ "journey_added_delay" → k ≠ "arrival_delay_diff" →
      k ≠ "departure_delay_diff" → rowGet e k = rowGet E2 k :=
    fun k h1 h2 h3 => ((jframe k h1).trans (f2 k h2)).trans (f1 k h3)
  have hdep_e : rowGet e "departure_delay" = rowGet E2 "departure_delay" :=
    he_E2 _ (by decide) (by decide) (by decide)
  have harr_e : rowGet e "arrival_delay" = rowGet E2 "arrival_delay" :=
    he_E2 _ (by decide) (by decide) (by decide)
  have hsbd_e : rowGet e "sb_departure_delay" = rowGet E2 "sb_departure_delay" :=
    he_E2 _ (by decide) (by decide) (by decide)
  have hsba_e : rowGet e "sb_arrival_delay" = rowGet E2 "sb_arrival_delay" :=
    he_E2 _ (by decide) (by decide) (by decide)
  have harr_e3 : rowGet e "arrival_delay" = rowGet e3 "arrival_delay" :=
    he_e3 _ (by decide) (by decide)
  have hsba_e3 : rowGet e "sb_arrival_delay" = rowGet e3 "sb_arrival_delay" :=
    he_e3 _ (by decide) (by decide)
  have harr_e4 : rowGet e "arrival_delay" = rowGet e4 "arrival_delay" :=
    he_e4 _ (by decide)
  have hdep_e4 : rowGet e "departure_delay" = rowGet e4 "departure_delay" :=
    he_e4 _ (by decide)
  refine ⟨?_, ?_, ?_, ?_, ?_⟩
  · rw [jval]
    unfold rowGetD
    rw [harr_e4, hdep_e4]
  · rw [he_e3 _ (by decide) (by decide), iff1]
    unfold hasKey rowGetD
    rw [hdep_e, hsbd_e]
  · intro d hd
    rw [he_e3 _ (by decide) (by decide)] at hd
    have := val1 d hd
    unfold rowGetD at this ⊢
    rw [hdep_e, hsbd_e]
    exact this
  · rw [he_e4 _ (by decide), iff2]
    unfold hasKey rowGetD
    rw [harr_e3, hsba_e3]
  · intro d hd
    rw [he_e4 _ (by decide)] at hd
    have := val2 d hd
    unfold rowGetD at this ⊢
    rw [harr_e3, hsba_e3]
    exact this

/-- C8 witness: a record with a null (absent) departure delay and arrival
delay 5, matched against empty boards, gets `journey_added_delay = 5` and
no delay-diff columns. -/
theorem journey_added_delay_witness :
    match_connection_with_station_board [("arrival_delay", Json.int 5)] [] []
      = .ok [("arrival_delay", Json.int 5), ("journey_added_delay", Json.int 5)] ∧
    rowGet [("arrival_delay", Json.int 5), ("journey_added_delay", Json.int 5)]
      "journey_added_delay" = some (Json.int (numOrZero (Json.int 5) - numOrZero Json.null)) ∧
    (rowGet [("arrival_delay", Json.int 5), ("journey_added_delay", Json.int 5)]
      "departure_delay_diff").isSome = false := by
  have h := journey_added_delay_semantics [("arrival_delay", Json.int 5)] [] []
    [("arrival_delay", Json.int 5), ("journey_added_delay", Json.int 5)] rfl rfl rfl
  refine ⟨rfl, ?_, ?_⟩
  · exact h.1
  · exact h.2.1

/-! ## Claim C9: connections lacking the `to` sub-object -/

/-- Every column written by the per-leg loop of `process_connection` starts
with the letter `s` (its keys all begin with `section_`). -/
theorem sectionKey_head (t : String) :
    ("section_" ++ t).data.head? = some 's' := by
  cases t with
  | mk d => rfl

/-- Inversion of a successful `Except` bind: the first stage succeeded and
the continuation succeeded on its value. -/
theorem except_bind_ok_inv {α β : Type} {e : Except String α}
    {f : α → Except String β} {b : β}
    (h : (e >>= f) = .ok b) : ∃ a, e = .ok a ∧ f a = .ok b := by
  cases e with
  | error m => rw [except_bind_error] at h; exact Except.noConfusion h
  | ok a => exact ⟨a, rfl, h⟩

/-- Writing the `section_{idx}_*` columns of one leg leaves every column
whose name does not start with `s` unchanged. -/
theorem rowGet_foldSection (idx : Nat) (k : String) (hk : k.data.head? ≠ some 's')
    (kvs : List (String × Json)) (r : Row) :
    rowGet (kvs.foldl
      (fun acc sv => setField acc ("section_" ++ (toString idx ++ sv.1)) sv.2) r) k
      = rowGet r k := by
  induction kvs generalizing r with
  | nil => rfl
  | cons sv rest ih =>
      rw [List.foldl_cons, ih]
      exact rowGet_setField_ne r k _ sv.2
        (fun heq => hk (by rw [heq]; exact sectionKey_head _))

/-- One iteration of the per-leg loop leaves every column whose name does
not start with `s` unchanged. -/
theorem addOneSection_frame (off : Int) (r : Row) (idx : Nat) (sec : Json)
    (r' : Row) (h : addOneSection off r idx sec = .ok r')
    (k : String) (hk : k.data.head? ≠ some 's') :
    rowGet r' k = rowGet r k := by
  simp only [addOneSection] at h
  by_cases hnull : (sec != Json.null) = true
  · rw [if_pos hnull] at h
    obtain ⟨hasJ, hcj, h⟩ := except_bind_ok_inv h
    cases hasJ with
    | false =>
        simp only [Bool.false_eq_true, if_false] at h
        injection h with h1
        rw [← h1]
    | true =>
        simp only [if_true] at h
        obtain ⟨kvs, hsv, h⟩ := except_bind_ok_inv h
        injection h with h1
        rw [← h1]
        exact rowGet_foldSection idx k hk kvs r
  · rw [if_neg hnull] at h
    injection h with h1
    rw [← h1]

/-- The whole per-leg loop leaves every column whose name does not start
with `s` unchanged. -/
theorem addSectionFields_frame (off : Int) (secs : List Json) :
    ∀ (r : Row) (idx : Nat) (r' : Row),
    addSectionFields off r idx secs = .ok r' →
    ∀ k, k.data.head? ≠ some 's' → rowGet r' k = rowGet r k := by
  induction secs with
  | nil =>
      intro r idx r' h k hk
      injection h with h1
      rw [← h1]
  | cons sec rest ih =>
      intro r idx r' h k hk
      simp only [addSectionFields] at h
      obtain ⟨r1, ha, h⟩ := except_bind_ok_inv h
      rw [ih r1 (idx + 1) r' h k hk, addOneSection_frame off r idx sec r1 ha k hk]

/-- Claim C9, corrected: when `process_connection` is applied to a
connection object with no `to` key and completes without raising, the
destination station id and name are the *empty string* (the source passes
the default `''`, not `None`), while the arrival date, time, timestamp,
delay and platform, and the derived `travel_delay`, are all null.  The
literal claim — that the station id and name are null too — is refuted by
`missing_to_not_null`, which also shows the "never raises" reading fails
for a non-dict `from` value. -/
theorem missing_to_fields (off : Int) (d t : String) (fs : Row) (r : Row)
    (hto : rowGet fs "to" = none)
    (hok : process_connection off d t (Json.obj fs) = .ok r) :
    rowGet r "to_station_id" = some (Json.str "") ∧
    rowGet r "to_station_name" = some (Json.str "") ∧
    rowGet r "arrival_date" = some Json.null ∧
    rowGet r "arrival_time" = some Json.null ∧
    rowGet r "arrival_timestamp" = some Json.null ∧
    rowGet r "arrival_delay" = some Json.null ∧
    rowGet r "arrival_platform" = some Json.null ∧
    rowGet r "travel_delay" = some Json.null := by
  simp only [process_connection] at hok
  obtain ⟨from_data, hA, hok⟩ := except_bind_ok_inv hok
  obtain ⟨to_data, hB, hok⟩ := except_bind_ok_inv hok
  rw [show safe_get (Json.obj fs) "to" (Json.obj [])
        = Except.ok (rowGetD fs "to" (Json.obj [])) from rfl] at hB
  injection hB with hB'
  have hB2 : to_data = Json.obj [] := by rw [← hB', rowGetD, hto]; rfl
  subst hB2
  obtain ⟨from_station, h3, hok⟩ := except_bind_ok_inv hok
  obtain ⟨to_station, h4, hok⟩ := except_bind_ok_inv hok
  rw [show safe_get (Json.obj []) "station" (Json.obj [])
        = Except.ok (Json.obj []) from rfl] at h4
  injection h4 with h4'
  subst h4'
  obtain ⟨departure_str, h5, hok⟩ := except_bind_ok_inv hok
  obtain ⟨arrival_str, h6, hok⟩ := except_bind_ok_inv hok
  rw [show safe_get (Json.obj []) "arrival" = Except.ok Json.null from rfl] at h6
  injection h6 with h6'
  subst h6'
  obtain ⟨departure_timestamp, h7, hok⟩ := except_bind_ok_inv hok
  obtain ⟨arrival_timestamp, h8, hok⟩ := except_bind_ok_inv hok
  rw [show safe_get (Json.obj []) "arrivalTimestamp" = Except.ok Json.null from rfl] at h8
  injection h8 with h8'
  subst h8'
  obtain ⟨departure_dt, h9, hok⟩ := except_bind_ok_inv hok
  obtain ⟨arrival_dt, h10, hok⟩ := except_bind_ok_inv hok
  rw [show parse_iso_datetime Json.null
        = Except.ok (none : Option PyDateTime) from rfl] at h10
  injection h10 with h10'
  subst h10'
  obtain ⟨dep_delay0, h11, hok⟩ := except_bind_ok_inv hok
  obtain ⟨arr_delay0, h12, hok⟩ := except_bind_ok_inv hok
  rw [show safe_get (Json.obj []) "delay" = Except.ok Json.null from rfl] at h12
  injection h12 with h12'
  subst h12'
  simp only [show (Json.null != Json.null) = false from rfl,
    show (Json.null == Json.null) = true from rfl,
    Bool.true_and, Bool.false_and, Bool.and_false, Bool.false_eq_true, if_false] at hok
  obtain ⟨travel_delay, htv, hok⟩ := except_bind_ok_inv hok
  rw [show (pure Json.null : Except String Json) = Except.ok Json.null from rfl] at htv
  injection htv with htv'
  subst htv'
  obtain ⟨duration_str, hd1, hok⟩ := except_bind_ok_inv hok
  obtain ⟨duration_minutes, hd2, hok⟩ := except_bind_ok_inv hok
  obtain ⟨sections0, hs0, hok⟩ := except_bind_ok_inv hok
  clear hA hB' h3 h5 h7 h9 h11 hd1 hd2 hs0 hto
  cases sections0
  case str s => obtain ⟨a, hdead, hok2⟩ := except_bind_ok_inv hok; exact Except.noConfusion hdead
  case int n => obtain ⟨a, hdead, hok2⟩ := except_bind_ok_inv hok; exact Except.noConfusion hdead
  case obj o => obtain ⟨a, hdead, hok2⟩ := except_bind_ok_inv hok; exact Except.noConfusion hdead
  all_goals (
    obtain ⟨sections, hsec, hok⟩ := except_bind_ok_inv hok;
    obtain ⟨fsid, hf1, hok⟩ := except_bind_ok_inv hok;
    obtain ⟨fsname, hf2, hok⟩ := except_bind_ok_inv hok;
    obtain ⟨tsid, ht1, hok⟩ := except_bind_ok_inv hok;
    rw [show safe_get (Json.obj []) "id" (Json.str "") = Except.ok (Json.str "") from rfl] at ht1;
    injection ht1 with ht1'; subst ht1';
    obtain ⟨tsname, ht2, hok⟩ := except_bind_ok_inv hok;
    rw [show safe_get (Json.obj []) "name" (Json.str "") = Except.ok (Json.str "") from rfl] at ht2;
    injection ht2 with ht2'; subst ht2';
    obtain ⟨dplatform, hp1, hok⟩ := except_bind_ok_inv hok;
    obtain ⟨aplatform, hp2, hok⟩ := except_bind_ok_inv hok;
    rw [show safe_get (Json.obj []) "platform" = Except.ok Json.null from rfl] at hp2;
    injection hp2 with hp2'; subst hp2';
    obtain ⟨cap1, hc1, hok⟩ := except_bind_ok_inv hok;
    obtain ⟨cap2, hc2, hok⟩ := except_bind_ok_inv hok;
    obtain ⟨cats, hcats, hok⟩ := except_bind_ok_inv hok;
    obtain ⟨catStrs, hcs, hok⟩ := except_bind_ok_inv hok)
  all_goals (
    have hfr := addSectionFields_frame off sections _ 1 r hok;
    refine ⟨?_, ?_, ?_, ?_, ?_, ?_, ?_, ?_⟩ <;>
      rw [hfr _ (by decide), rowGet_setField_ne _ _ _ _ (by decide)] <;> rfl)

/-- The record `process_connection` produces for the empty connection
object (UTC offset 0, collection date 2025-03-01, collection time
10:00:00). -/
def c9Row : Row := [
  ("collection_date", .str "2025-03-01"), ("collection_time", .str "10:00:00"),
  ("from_station_id", .str ""), ("from_station_name", .str ""),
  ("to_station_id", .str ""), ("to_station_name", .str ""),
  ("departure_date", .null), ("arrival_date", .null),
  ("departure_time", .null), ("arrival_time", .null),
  ("departure_timestamp", .null), ("arrival_timestamp", .null),
  ("duration_minutes", .null), ("duration_str", .null),
  ("transfers", .int 0),
  ("departure_delay", .null), ("arrival_delay", .null), ("travel_delay", .null),
  ("departure_platform", .null), ("arrival_platform", .null),
  ("capacity1st", .null), ("capacity2nd", .null),
  ("products", .str "")]

/-- Claim C9, counterexample to the literal claim: on a connection object
with no `to` key the destination station id comes out as the empty string
`''`, not null (the source passes `''` as the `safe_get` default for the
station id and name); and a connection whose `from` value is a non-dict
raises `AttributeError`, so "does not raise" does not hold for *every*
object lacking `to` either. -/
theorem missing_to_not_null :
    (process_connection 0 "2025-03-01" "10:00:00" (Json.obj [])).map
      (fun r => rowGet r "to_station_id") = .ok (some (Json.str "")) ∧
    Json.str "" ≠ Json.null ∧
    process_connection 0 "2025-03-01" "10:00:00"
      (Json.obj [("from", Json.int 5)]) = .error "AttributeError" :=
  ⟨rfl, fun h => Json.noConfusion h, rfl⟩

/-- C9 witness: the empty connection object is processed without error and
every `to`-derived column of the result has the corrected value. -/
theorem missing_to_fields_witness :
    rowGet c9Row "to_station_id" = some (Json.str "") ∧
    rowGet c9Row "to_station_name" = some (Json.str "") ∧
    rowGet c9Row "arrival_date" = some Json.null ∧
    rowGet c9Row "arrival_time" = some Json.null ∧
    rowGet c9Row "arrival_timestamp" = some Json.null ∧
    rowGet c9Row "arrival_delay" = some Json.null ∧
    rowGet c9Row "arrival_platform" = some Json.null ∧
    rowGet c9Row "travel_delay" = some Json.null :=
  missing_to_fields 0 "2025-03-01" "10:00:00" [] c9Row rfl rfl

end SBB
